import Mathlib

/-!
Verification of the tactical decision layer of the ra2web-chronodivide-bot
repository against its natural-language specification.

Each definition below is a shallow embedding of a function of the TypeScript
source.  JavaScript numbers are modelled as rationals (coordinates, ranges,
priorities) and as reals where square roots or trigonometry appear; the
engine tick counter and wall-clock milliseconds are modelled as integers.
External collaborators (the awareness cache, the map API, the host engine)
are passed in as explicit environment data, exactly as the source receives
them through its parameters.
-/

set_option maxHeartbeats 1600000

namespace RA2Bot

open Classical

/-- A 2D point with rational coordinates (JS number pairs in the source). -/
structure Vec2 where
  x : ℚ
  y : ℚ
deriving DecidableEq, Repr

/-- Modelled from the spec: the helper getDistanceBetweenPoints of map/map.ts
is not part of the provided sources (only its import sites are); per the
spec it is the Euclidean distance between two 2D points. -/
noncomputable def getDistanceBetweenPoints (p q : Vec2) : ℝ :=
  Real.sqrt (((p.x - q.x) ^ 2 + (p.y - q.y) ^ 2 : ℚ))

/-- The squared distance, used to decide comparisons against rational bounds. -/
def distSq (p q : Vec2) : ℚ :=
  (p.x - q.x) ^ 2 + (p.y - q.y) ^ 2

theorem getDistanceBetweenPoints_eq_sqrt_distSq (p q : Vec2) :
    getDistanceBetweenPoints p q = Real.sqrt ((distSq p q : ℚ)) := rfl

theorem distSq_nonneg (p q : Vec2) : (0 : ℚ) ≤ distSq p q := by
  have h1 : (0 : ℚ) ≤ (p.x - q.x) ^ 2 := sq_nonneg _
  have h2 : (0 : ℚ) ≤ (p.y - q.y) ^ 2 := sq_nonneg _
  unfold distSq; linarith

/-- distGT p q c states that the Euclidean distance from p to q is
strictly greater than the rational bound c. -/
def distGT (p q : Vec2) (c : ℚ) : Prop :=
  (c : ℝ) < getDistanceBetweenPoints p q

/-- distLE p q c states that the Euclidean distance from p to q is at most c. -/
def distLE (p q : Vec2) (c : ℚ) : Prop :=
  getDistanceBetweenPoints p q ≤ (c : ℝ)

theorem distGT_iff (p q : Vec2) (c : ℚ) :
    distGT p q c ↔ (c < 0 ∨ c ^ 2 < distSq p q) := by
  unfold distGT getDistanceBetweenPoints
  have hds : (((p.x - q.x) ^ 2 + (p.y - q.y) ^ 2 : ℚ) : ℝ) = ((distSq p q : ℚ) : ℝ) := by
    unfold distSq; norm_num
  rw [hds]
  rcases lt_or_le c 0 with hneg | hpos
  · constructor
    · intro _; exact Or.inl hneg
    · intro _
      calc (c : ℝ) < 0 := by exact_mod_cast hneg
        _ ≤ _ := Real.sqrt_nonneg _
  · rw [Real.lt_sqrt (by exact_mod_cast hpos)]
    rw [show ((c : ℝ) ^ 2) = ((c ^ 2 : ℚ) : ℝ) by push_cast; ring, Rat.cast_lt]
    constructor
    · exact Or.inr
    · rintro (h | h)
      · exact absurd hpos (not_le.mpr h)
      · exact h

instance (p q : Vec2) (c : ℚ) : Decidable (distGT p q c) :=
  decidable_of_iff _ (distGT_iff p q c).symm

theorem distLE_iff (p q : Vec2) (c : ℚ) :
    distLE p q c ↔ ¬ distGT p q c := by
  unfold distLE distGT
  exact ⟨fun h => not_lt.mpr h, fun h => not_lt.mp h⟩

instance (p q : Vec2) (c : ℚ) : Decidable (distLE p q c) :=
  decidable_of_iff _ (distLE_iff p q c).symm

/-- The distance between two points with equal y coordinates is the absolute
difference of the x coordinates; used to evaluate concrete instances. -/
theorem dist_horizontal (a b y : ℚ) (h : a ≤ b) :
    getDistanceBetweenPoints ⟨a, y⟩ ⟨b, y⟩ = ((b - a : ℚ) : ℝ) := by
  unfold getDistanceBetweenPoints
  have h0 : ((a - b) ^ 2 + (y - y) ^ 2 : ℚ) = (b - a) ^ 2 := by ring
  rw [show (⟨a, y⟩ : Vec2).x = a from rfl]
  simp only [h0]
  push_cast
  rw [Real.sqrt_sq (by exact_mod_cast sub_nonneg.mpr h)]

/-- The mirror-image horizontal distance evaluation. -/
theorem dist_horizontal_ge (a b y : ℚ) (h : b ≤ a) :
    getDistanceBetweenPoints ⟨a, y⟩ ⟨b, y⟩ = ((a - b : ℚ) : ℝ) := by
  unfold getDistanceBetweenPoints
  have h0 : ((a - b) ^ 2 + (y - y) ^ 2 : ℚ) = (a - b) ^ 2 := by ring
  rw [show (⟨a, y⟩ : Vec2).x = a from rfl]
  simp only [h0]
  push_cast
  rw [Real.sqrt_sq (by exact_mod_cast sub_nonneg.mpr h)]

/-- The distance from any point to itself is zero. -/
theorem dist_self (p : Vec2) : getDistanceBetweenPoints p p = 0 := by
  unfold getDistanceBetweenPoints
  norm_num

/-!
## Production priority rules (unnamed/part_000, unnamed/part_001)

BasicGroundUnit.getPriority (part_000, lines 151-164) and the building
rule table (part_001, lines 244-302).
-/

namespace BasicGroundUnit

/-- Configuration of one BasicGroundUnit rule instance (constructor of
part_000, lines 135-141). -/
structure Config where
  basePriority : ℚ
  baseAmount : ℚ
  antiGroundPower : ℚ
  antiAirPower : ℚ
  maxGlobalCount : Option ℤ
deriving DecidableEq, Repr

/-- BasicGroundUnit.getPriority (part_000, lines 151-164): if a global cap
is configured and the owned count has reached it, return 0; otherwise fall
through to the final return, which is also 0. currentCount is the result
of the getVisibleUnits query on the host engine. -/
def getPriority (cfg : Config) (currentCount : ℤ) : ℚ :=
  match cfg.maxGlobalCount with
  | some maxCount => if maxCount ≤ currentCount then 0 else 0
  | none => 0

end BasicGroundUnit

/-- Modelled from the spec: the production collaborator is not part of the
provided sources; part_001 line 239 documents the convention with the
comment that priority 0 means do not build. A unit type is enqueued for
production only when its priority is strictly positive. -/
def prioritisedForProduction (priority : ℚ) : Prop :=
  0 < priority

/-- The BasicGroundUnit rows of BUILDING_NAME_TO_RULES
(part_001, lines 263-299), as (name, basePriority, baseAmount,
antiGroundPower, antiAirPower, maxGlobalCount). -/
def basicGroundUnitRows : List (String × BasicGroundUnit.Config) :=
  [ ("E1", ⟨2, 2, 1/5, 0, none⟩),
    ("ENGINEER", ⟨1, 0, 0, 0, none⟩),
    ("MTNK", ⟨10, 3, 2, 0, none⟩),
    ("MGTK", ⟨10, 1, 5/2, 0, none⟩),
    ("FV", ⟨5, 2, 1/2, 1, none⟩),
    ("CLEG", ⟨0, 0, 1, 0, none⟩),
    ("SHAD", ⟨0, 0, 1, 0, none⟩),
    ("E2", ⟨2, 2, 1/5, 0, none⟩),
    ("SENGINEER", ⟨1, 0, 0, 0, none⟩),
    ("FLAKT", ⟨2, 2, 1/10, 3/10, none⟩),
    ("YURI", ⟨1, 1, 1, 0, none⟩),
    ("DOG", ⟨1, 1, 0, 0, none⟩),
    ("HTNK", ⟨10, 3, 3, 0, none⟩),
    ("APOC", ⟨6, 1, 5, 0, none⟩),
    ("HTK", ⟨5, 2, 33/100, 3/2, none⟩) ]

/-!
## Scouting mission factory (scoutingMission.ts lines 352-399, part_004 lines 22-63)
-/

/-- One invocation of ScoutingMissionFactory.maybeCreateMissions
(scoutingMission.ts, lines 361-377).  State is the lastScoutAt field;
hasTargets is the hasScoutTargets() query on the scouting manager, and
addOk is the return value of missionController.addMission for the newly
constructed ScoutingMission.  Returns the new lastScoutAt and whether a
mission was created (addMission called and returned true).
SCOUT_COOLDOWN_TICKS = 300. -/
def scoutFactoryStep (lastScoutAt : ℤ) (currentTick : ℤ) (hasTargets : Bool)
    (addOk : Bool) : ℤ × Bool :=
  if currentTick < lastScoutAt + 300 then (lastScoutAt, false)
  else if !hasTargets then (lastScoutAt, false)
  else if !addOk then (currentTick, false)
  else (lastScoutAt, true)

/-!
## Naval mission timeouts (unnamed/part_004, lines 108-142 and 222-258)
-/

namespace NavalMission

/-- Timeout-tracking state of the part_004 NavalMission.  The constructor
(lines 129-142) sets missionStartTime and gatherStartTime to Date.now()
(wall-clock milliseconds), while lastProgressTime keeps its field
initialiser 0 (line 126). -/
structure Timers where
  missionStartTime : ℤ
  lastProgressTime : ℤ
  lastPosition : Option Vec2
deriving DecidableEq, Repr

/-- Constructor of part_004 NavalMission (lines 129-142): both start times
are Date.now(), lastProgressTime stays 0, lastPosition stays null. -/
def mkTimers (wallClockNow : ℤ) : Timers :=
  { missionStartTime := wallClockNow, lastProgressTime := 0, lastPosition := none }

/-- distGE p q c states that the Euclidean distance from p to q is at least c. -/
def distGE (p q : Vec2) (c : ℚ) : Prop :=
  (c : ℝ) ≤ getDistanceBetweenPoints p q

theorem distGE_iff (p q : Vec2) (c : ℚ) :
    distGE p q c ↔ (c ≤ 0 ∨ c ^ 2 ≤ distSq p q) := by
  unfold distGE
  rw [getDistanceBetweenPoints_eq_sqrt_distSq]
  rcases le_or_lt c 0 with hneg | hpos
  · constructor
    · intro _; exact Or.inl hneg
    · intro _
      calc (c : ℝ) ≤ 0 := by exact_mod_cast hneg
        _ ≤ _ := Real.sqrt_nonneg _
  · rw [Real.le_sqrt (by exact_mod_cast hpos.le) (by exact_mod_cast distSq_nonneg p q)]
    rw [show ((c : ℝ) ^ 2) = ((c ^ 2 : ℚ) : ℝ) by push_cast; ring, Rat.cast_le]
    constructor
    · exact Or.inr
    · rintro (h | h)
      · exact absurd hpos (not_lt.mpr h)
      · exact h

instance (p q : Vec2) (c : ℚ) : Decidable (distGE p q c) :=
  decidable_of_iff _ (distGE_iff p q c).symm

/-- NavalMission.checkMissionProgress (part_004, lines 222-240).
MIN_PROGRESS_DISTANCE = 10.  On the first call it records the position and
reports progress without touching lastProgressTime; afterwards it advances
lastProgressTime to Date.now() only when the centroid moved at least 10. -/
def checkMissionProgress (t : Timers) (currentPosition : Vec2)
    (wallClockNow : ℤ) : Timers × Bool :=
  match t.lastPosition with
  | none => ({ t with lastPosition := some currentPosition }, true)
  | some lastPos =>
      if distGE currentPosition lastPos 10 then
        ({ t with lastPosition := some currentPosition,
                  lastProgressTime := wallClockNow }, true)
      else (t, false)

/-- NavalMission.shouldCancelMission (part_004, lines 242-258).
MAX_MISSION_DURATION = 1800, MAX_NO_PROGRESS_TIME = 600.  The mission
duration subtracts the wall-clock missionStartTime from the engine tick
counter, and the no-progress time is measured against Date.now(). -/
def shouldCancelMission (t : Timers) (currentTick : ℤ) (wallClockNow : ℤ) : Bool :=
  if 1800 < currentTick - t.missionStartTime then true
  else if 600 < wallClockNow - t.lastProgressTime then true
  else false

end NavalMission

/-!
## Attack mission target switching (navalMission.ts, lines 785-860 and 902-920)
-/

namespace AttackMission

/-- The data of one hostile as consumed by evaluateTarget after the call
site filters (getUnitData lookup and neutral-owner filter): its rules name,
whether rules.type is Building, and rules.isSelectableCombatant. -/
structure HostileData where
  name : String
  isBuilding : Bool
  isSelectableCombatant : Bool
deriving DecidableEq, Repr

/-- AttackMission.evaluateTarget (navalMission.ts, lines 785-824).
NAVAL_YARD_SCORE_MULTIPLIER = 3.0.  hostiles is the awareness query around
the target within the mission radius; com is this.getCenterOfMass().  A
NAYARD building adds 15 * 3, another building 10, a selectable combatant
5, anything else 1; with a naval yard present the distance penalty factor
is 0.005 instead of 0.01, and with no centre of mass the raw score is
returned unchanged. -/
noncomputable def evaluateTarget (hostiles : List HostileData) (com : Option Vec2)
    (target : Vec2) : ℝ :=
  let rawScore : ℚ := hostiles.foldl (fun acc h =>
    if h.isBuilding then
      (if h.name = "NAYARD" then acc + 15 * 3 else acc + 10)
    else if h.isSelectableCombatant then acc + 5
    else acc + 1) 0
  let hasNavalYard : Bool := hostiles.any fun h => h.isBuilding && h.name == "NAYARD"
  match com with
  | some c =>
      let distance := getDistanceBetweenPoints c target
      if hasNavalYard then (rawScore : ℝ) / (1 + distance * (5/1000))
      else (rawScore : ℝ) / (1 + distance * (1/100))
  | none => (rawScore : ℝ)

/-- The target-switching state of AttackMission (fields of lines 515-517). -/
structure TargetState where
  currentTargetLockTime : ℤ
  currentTargetScore : ℝ
  recentTargets : List Vec2

/-- AttackMission.shouldSwitchTarget (navalMission.ts, lines 829-860).
TARGET_LOCK_DURATION = 150, TARGET_SWITCH_MIN_IMPROVEMENT = 0.3.
hostilesNearCurrentCount is the length of the awareness query around the
current squad attack area within the mission radius: inside the lock
window the function bails out only when that query is nonempty.  Then a
candidate within the |dx| < 5 and |dy| < 5 box of a recently visited
target is rejected, and otherwise the switch happens exactly when the
freshly evaluated score beats the stored one by the improvement ratio. -/
def shouldSwitchTarget (st : TargetState) (currentTick : ℤ)
    (hostilesNearCurrentCount : ℕ) (newTarget : Vec2)
    (newTargetHostiles : List HostileData) (com : Option Vec2) : Prop :=
  if currentTick - st.currentTargetLockTime < 150 ∧ 0 < hostilesNearCurrentCount then
    False
  else if ∃ r ∈ st.recentTargets, |r.x - newTarget.x| < 5 ∧ |r.y - newTarget.y| < 5 then
    False
  else
    evaluateTarget newTargetHostiles com newTarget > st.currentTargetScore * (1 + 3/10)

/-- The recent-target memory update of AttackMission.updateTarget
(navalMission.ts, lines 916-919): push the new target, and shift the
oldest entry out when the list exceeds TARGET_MEMORY_SIZE = 3. -/
def updateTargetRecent (recent : List Vec2) (newTarget : Vec2) : List Vec2 :=
  let pushed := recent ++ [newTarget]
  if 3 < pushed.length then pushed.drop 1 else pushed

end AttackMission

/-!
## Naval mission scatter check (unnamed/part_004, lines 304-342 and 396-414)
-/

/-- Modelled from the spec: Mission.getCenterOfMass lives in the Mission
base class (mission.ts), which is not among the provided sources; per the
spec glossary the centroid is the mean position of the owned units, and it
is null when the mission owns no units. -/
def getCenterOfMass (positions : List Vec2) : Option Vec2 :=
  match positions with
  | [] => none
  | ps => some ⟨((ps.map Vec2.x).sum) / ps.length, ((ps.map Vec2.y).sum) / ps.length⟩

namespace NavalMission

/-- NavalMission.checkUnitScatter (part_004, lines 396-414).
MAX_SCATTER_DISTANCE = 20, FORCE_GATHER_THRESHOLD = 0.6.  navalUnits are
the positions of the mission naval units and com is this.getCenterOfMass. -/
def checkUnitScatter (navalUnits : List Vec2) (com : Option Vec2) : Bool :=
  if navalUnits.length < 2 then false
  else
    match com with
    | none => false
    | some c =>
        let scatteredUnits := (navalUnits.filter (fun u => decide (distGT u c 20))).length
        decide ((3 : ℚ)/5 < (scatteredUnits : ℚ) / (navalUnits.length : ℚ))

/-- Mission state of the part_004 NavalMission. -/
inductive MState where
  | Preparing
  | Attacking
  | Retreating
deriving DecidableEq, Repr

/-- Mission action kinds relevant to the Preparing branch. -/
inductive MAct where
  | requestUnits (types : List String) (priority : ℚ)
  | squadUpdate
deriving DecidableEq, Repr

/-- Result of one Preparing-state update: the next mission state, the
target area handed to the squad this tick (none when the early
requestUnits return skips setTargetArea), and the returned action. -/
structure PrepResult where
  state : MState
  squadTargetArea : Option Vec2
  act : MAct
deriving DecidableEq, Repr

/-- The Preparing branch of NavalMission _onAiUpdate (part_004, lines
304-342).  NAVAL_UNIT_REQUEST_PRIORITY = 60, FORCE_ATTACK_THRESHOLD = 0.5,
MAX_GATHER_TIME = 900.  On scatter the squad is pointed at the rally point
and updated at once; otherwise missing units are requested, and then the
threshold and gather-time rules may move the state to Attacking before the
squad is pointed at the rally point and updated. -/
def preparingStep (navalUnits : List Vec2) (com : Option Vec2)
    (targetComposition currentComposition : List (String × ℕ))
    (currentTick gatherStartTime : ℤ) (rallyPoint : Vec2) : PrepResult :=
  if checkUnitScatter navalUnits com then
    ⟨MState.Preparing, some rallyPoint, MAct.squadUpdate⟩
  else
    let missingUnits : List String := (targetComposition.map (fun p =>
      let current := (currentComposition.lookup p.1).getD 0
      if current < p.2 then List.replicate (p.2 - current) p.1 else [])).flatten
    if missingUnits ≠ [] then
      ⟨MState.Preparing, none, MAct.requestUnits missingUnits 60⟩
    else
      let totalUnits := navalUnits.length
      let targetTotal := ((targetComposition.map Prod.snd).sum : ℕ)
      let gatherTime := currentTick - gatherStartTime
      let nextState :=
        if (targetTotal : ℚ) * (1/2) ≤ (totalUnits : ℚ) ∨
            (900 < gatherTime ∧ 2 ≤ totalUnits) ∨
            (2 ≤ totalUnits ∧ 450 < gatherTime) then
          MState.Attacking
        else MState.Preparing
      ⟨nextState, some rallyPoint, MAct.squadUpdate⟩

end NavalMission

/-!
## Naval squad gather and attack radii (unnamed/part_005, lines 652-677 and 843-870)
-/

namespace NavalSquad

/-- Modelled from the spec: Mission.getMaxDistanceToCenterOfMass of the
missing Mission base class (mission.ts); per the spec glossary the
centroid checks use the distance from the centroid to the farthest owned
unit, undefined when there are no units. -/
noncomputable def getMaxDistanceToCenterOfMass (positions : List Vec2) : Option ℝ :=
  match getCenterOfMass positions with
  | none => none
  | some c => some (positions.foldl (fun acc p => max acc (getDistanceBetweenPoints p c)) 0)

/-- The guard shared by both branches of NavalSquad.onAiUpdate
(part_005, lines 654-659, 669-674, 845-850 and 861-866):
centerOfMass && maxDistance && getTile(centerOfMass) !== undefined &&
maxDistance > requiredGatherRadius.  maxDistance is a JS number, so the
value 0 is falsy and also fails the guard. -/
def squadRadiusGuard (com : Option Vec2) (maxD : Option ℝ)
    (tileDefinedAtCom : Bool) (required : ℝ) : Prop :=
  ∃ c, com = some c ∧ ∃ d, maxD = some d ∧ d ≠ 0 ∧
    tileDefinedAtCom = true ∧ required < d

/-- Squad states (part_005 lines 40-45 and 801-804; the second class only
uses Gathering and Attacking). -/
inductive SquadState where
  | Gathering
  | Attacking
  | Retreating
  | Exploring
deriving DecidableEq, Repr

/-- The state transition of one command tick of NavalSquad.onAiUpdate
(part_005, lines 843-870; the radius guards of the richer class at lines
652-677 are identical).  GATHER_RATIO = 2, MIN_GATHER_RADIUS = 3,
MAX_GATHER_RADIUS = 6, and n is the number of squad naval units.  While
Gathering, the squad keeps gathering while the guard holds at radius
sqrt(n) * 2 + 3 and otherwise switches to Attacking; otherwise it reverts
to Gathering exactly when the guard holds at radius sqrt(n) * 2 + 6. -/
noncomputable def nextSquadState (st : SquadState) (positions : List Vec2)
    (tileDefinedAtCom : Bool) : SquadState :=
  let com := getCenterOfMass positions
  let maxD := getMaxDistanceToCenterOfMass positions
  let n : ℕ := positions.length
  if st = SquadState.Gathering then
    if squadRadiusGuard com maxD tileDefinedAtCom (Real.sqrt n * 2 + 3) then
      SquadState.Gathering
    else SquadState.Attacking
  else
    if squadRadiusGuard com maxD tileDefinedAtCom (Real.sqrt n * 2 + 6) then
      SquadState.Gathering
    else st

theorem getMaxDistanceToCenterOfMass_nonneg (positions : List Vec2) (d : ℝ)
    (h : getMaxDistanceToCenterOfMass positions = some d) : 0 ≤ d := by
  unfold getMaxDistanceToCenterOfMass at h
  cases hc : getCenterOfMass positions with
  | none => rw [hc] at h; exact absurd h (by simp)
  | some c =>
      rw [hc] at h
      simp only [Option.some.injEq] at h
      subst h
      have key : ∀ (l : List Vec2) (a : ℝ), 0 ≤ a →
          0 ≤ l.foldl (fun acc p => max acc (getDistanceBetweenPoints p c)) a := by
        intro l
        induction l with
        | nil => intro a ha; simpa using ha
        | cons p rest ih =>
            intro a ha
            exact ih (max a (getDistanceBetweenPoints p c)) (le_max_of_le_left ha)
      exact key positions 0 le_rfl

theorem squadRadiusGuard_iff (c : Vec2) (com : Option Vec2) (maxD : Option ℝ)
    (d req : ℝ) (hcom : com = some c) (hd : maxD = some d) :
    squadRadiusGuard com maxD true req ↔ (d ≠ 0 ∧ req < d) := by
  unfold squadRadiusGuard
  subst hcom
  subst hd
  constructor
  · rintro ⟨c', -, d', hd', hne, -, hlt⟩
    obtain rfl : d = d' := by injection hd'
    exact ⟨hne, hlt⟩
  · rintro ⟨hne, hlt⟩
    exact ⟨c, rfl, d, rfl, hne, rfl, hlt⟩

theorem squadRadiusGuard_not_of_tile_undefined (com : Option Vec2)
    (maxD : Option ℝ) (req : ℝ) : ¬ squadRadiusGuard com maxD false req := by
  rintro ⟨c, -, d, -, -, hfalse, -⟩
  exact Bool.noConfusion hfalse

end NavalSquad

/-!
## Scouting mission target tracking (scoutingMission.ts, lines 195-341)
-/

namespace ScoutingMission

/-- Modelled from the spec: getDistanceBetweenTileAndPoint of map/map.ts is
not among the provided sources; it is the Euclidean distance between a
scout tile and the target point. -/
noncomputable def getDistanceBetweenTileAndPoint (tile : Vec2) (p : Vec2) : ℝ :=
  getDistanceBetweenPoints tile p

/-- Math.min over the scout distances to the target (scoutingMission.ts,
lines 279-280); the enclosing branch guarantees scouts is nonempty. -/
noncomputable def newMinDistanceOf (scouts : List Vec2) (tgt : Vec2) : ℝ :=
  match scouts with
  | [] => 0
  | s :: rest =>
      (rest.map (fun u => getDistanceBetweenTileAndPoint u tgt)).foldl min
        (getDistanceBetweenTileAndPoint s tgt)

/-- JS truthiness of this.scoutMinDistance (line 281): undefined and the
number 0 are both falsy. -/
def scoutMinFalsy : Option ℝ → Prop
  | none => True
  | some m => m = 0

/-- The per-target tracking state of ScoutingMission (fields of lines
34-53; the explored-tile sets and stuck-tracking maps feed only the
oracles below). -/
structure ScoutState where
  scoutTarget : Option Vec2
  attemptsOnCurrentTarget : ℕ
  scoutTargetRefreshedAt : ℤ
  lastMoveCommandTick : ℤ
  scoutTargetIsPermanent : Bool
  isWaterTarget : Bool
  scoutMinDistance : Option ℝ
  hadUnit : Bool

/-- Per-tick environment of ScoutingMission _onAiUpdate: the sector-cache
visibility, the engine tick, the positions of the owned scout units of the
requested types, the result of the stuck detector checkUnitsStuck (its
internal position maps are squad-local bookkeeping that only feeds this
boolean), the map tile at the target (none models getTile returning
undefined, some w tells whether its terrain is Water), whether the target
tile is visible, the result of the local findNextTarget search, and the
scouting-manager target with its isPermanent flag and its tile terrain. -/
structure ScoutEnv where
  overallVisibility : ℚ
  currentTick : ℤ
  scouts : List Vec2
  stuckSwitch : Bool
  targetTile : Option Bool
  targetVisible : Bool
  nextLocalTarget : Option Vec2
  managerTarget : Option (Vec2 × Bool)
  managerTargetTileIsWater : Bool

/-- Actions a ScoutingMission update can produce. -/
inductive ScoutAct where
  | noop
  | disband
  | requestScouts (waterNames : Bool)
  | errorThrown
deriving DecidableEq, Repr

/-- ScoutingMission.setScoutTarget (scoutingMission.ts, lines 326-341):
reset the attempt counter and the refresh timestamp, clear the minimum
distance, adopt the target and its permanence, and set isWaterTarget from
the target tile terrain (false when the target is null). -/
def setScoutTarget (st : ScoutState) (target : Option (Vec2 × Bool))
    (currentTick : ℤ) (tileIsWaterAtTarget : Bool) : ScoutState :=
  { st with
    attemptsOnCurrentTarget := 0
    scoutTargetRefreshedAt := currentTick
    scoutTarget := target.map Prod.fst
    scoutMinDistance := none
    scoutTargetIsPermanent := (target.map Prod.snd).getD false
    isWaterTarget :=
      match target with
      | some _ => tileIsWaterAtTarget
      | none => false }

/-- ScoutingMission _onAiUpdate (scoutingMission.ts, lines 195-324),
restricted to its state updates and returned action.
MAX_ATTEMPTS_PER_TARGET = 5, MAX_TICKS_PER_TARGET = 600,
SCOUT_MOVE_COOLDOWN_TICKS = 30.  In order: the 90 percent visibility
disband; the no-scouts branch that counts a loss attempt when a unit had
been seen; for a held target, the stuck-switch to water scouting, the
attempt-count and time-budget abandonments (non-permanent targets only),
the missing-tile error, the terrain-mismatch abandonment, the throttled
move block whose distance-improvement check refreshes the timer and the
recorded minimum, and the visible-target advance; with no target, fetch
one from the scouting manager or disband. -/
noncomputable def scoutStep (env : ScoutEnv) (st : ScoutState) :
    ScoutState × ScoutAct :=
  if 9/10 < env.overallVisibility then (st, ScoutAct.disband)
  else if env.scouts = [] then
    let st1 :=
      if st.scoutTarget.isSome ∧ st.hadUnit then
        { st with attemptsOnCurrentTarget := st.attemptsOnCurrentTarget + 1,
                  hadUnit := false }
      else st
    (st1, ScoutAct.requestScouts st1.isWaterTarget)
  else
    match st.scoutTarget with
    | some tgt =>
        let st1 : ScoutState := { st with hadUnit := true }
        if st1.scoutTargetIsPermanent = false ∧ st1.isWaterTarget = false ∧
            env.stuckSwitch = true then
          ({ st1 with isWaterTarget := true }, ScoutAct.requestScouts true)
        else if st1.scoutTargetIsPermanent = false ∧
            5 < st1.attemptsOnCurrentTarget then
          (setScoutTarget st1 none 0 false, ScoutAct.noop)
        else if st1.scoutTargetIsPermanent = false ∧
            st1.scoutTargetRefreshedAt + 600 < env.currentTick then
          (setScoutTarget st1 none 0 false, ScoutAct.noop)
        else
          match env.targetTile with
          | none => (st1, ScoutAct.errorThrown)
          | some isWaterTile =>
              if isWaterTile ≠ st1.isWaterTarget then
                (setScoutTarget st1 none 0 false, ScoutAct.noop)
              else
                let st2 :=
                  if st1.lastMoveCommandTick + 30 < env.currentTick then
                    let stMoved := { st1 with lastMoveCommandTick := env.currentTick }
                    let newMinDistance := newMinDistanceOf env.scouts tgt
                    if scoutMinFalsy stMoved.scoutMinDistance ∨
                        (∃ m, stMoved.scoutMinDistance = some m ∧ newMinDistance < m) then
                      { stMoved with scoutTargetRefreshedAt := env.currentTick,
                                     scoutMinDistance := some newMinDistance }
                    else stMoved
                  else st1
                if env.targetVisible then
                  match env.nextLocalTarget with
                  | some nt =>
                      ({ st2 with scoutTarget := some nt,
                                  scoutTargetRefreshedAt := env.currentTick,
                                  scoutMinDistance := none }, ScoutAct.noop)
                  | none =>
                      (setScoutTarget st2 none env.currentTick false, ScoutAct.noop)
                else (st2, ScoutAct.noop)
    | none =>
        match env.managerTarget with
        | none => (st, ScoutAct.disband)
        | some t =>
            (setScoutTarget st (some t) env.currentTick
              env.managerTargetTileIsWater, ScoutAct.noop)

end ScoutingMission

/-!
## Naval squad micro and combat (unnamed/part_005, both NavalSquad classes,
and squad/behaviours/common.ts)
-/

namespace NavalSquad

/-- Movement-domain classification of a unit (MovementZone of the game
API, restricted to the cases the squad code distinguishes). -/
inductive MoveZone where
  | Water
  | AmphibiousDestroyer
  | Other
deriving DecidableEq, Repr

/-- The unit data consumed by the squad code: id, rules name, tile
position, rules.isSelectableCombatant, rules.movementZone, rules.strength
and rules.points (the pair the weight functions use as a health fraction),
the optional weapon ranges, and the flags read by the micro helpers of
common.ts (stance Deployed, attack state JustFired, ObjectType Building,
rules.canDisguise). -/
structure URec where
  id : ℤ
  name : String
  tile : Vec2
  isSelectableCombatant : Bool
  moveZone : MoveZone
  strengthRules : ℚ
  pointsRules : ℚ
  primaryRange : Option ℚ
  secondaryRange : Option ℚ
  isDeployed : Bool
  justFired : Bool
  isBuildingType : Bool
  canDisguise : Bool

/-- Modelled from the spec: getDistanceBetweenUnits of the missing
map/map.ts, the Euclidean distance between the two unit tiles. -/
noncomputable def getDistanceBetweenUnits (a b : URec) : ℝ :=
  getDistanceBetweenPoints a.tile b.tile

/-- The nullish-coalescing range chain
attacker.primaryWeapon?.maxRange ?? attacker.secondaryWeapon?.maxRange ?? 5
(part_005 lines 421, 472, 479, 932). -/
def rangeNN (u : URec) : ℚ :=
  ((u.primaryRange).orElse (fun _ => u.secondaryRange)).getD 5

/-- Order kinds issued by the squad micro helpers. -/
inductive OrderKind where
  | Move
  | DeploySelected
  | Attack
deriving DecidableEq, Repr

/-- A batchable action as built by common.ts: the unit, the order kind,
and an optional target point or target unit id. -/
structure BAction where
  unitId : ℤ
  orderType : OrderKind
  point : Option (ℝ × ℝ)
  targetId : Option ℤ

/-- Cast a grid point to the real-valued point carried by an action. -/
def vecR (v : Vec2) : ℝ × ℝ := ((v.x : ℝ), (v.y : ℝ))

/-- manageMoveMicro (common.ts, lines 15-24): a deployed GI is undeployed
instead of moved; anything else gets a Move order on the point. -/
def manageMoveMicro (attacker : URec) (attackPoint : ℝ × ℝ) : BAction :=
  if attacker.name = "E1" ∧ attacker.isDeployed = true then
    ⟨attacker.id, OrderKind.DeploySelected, none, none⟩
  else ⟨attacker.id, OrderKind.Move, some attackPoint, none⟩

/-- The JS boolean-or default secondaryWeapon?.maxRange || 5 of
common.ts line 30 (0 is falsy). -/
def deployedRangeOr5 (u : URec) : ℚ :=
  match u.secondaryRange with
  | some r => if r = 0 then 5 else r
  | none => 5

/-- manageAttackMicro (common.ts, lines 26-48): a GI toggles deployment
depending on range and fire state; every other path issues an Attack on
the target unit (the building/disguise special cases of lines 40-46 both
assign OrderType.Attack, so the final order kind is Attack throughout). -/
noncomputable def manageAttackMicro (attacker target : URec) : BAction :=
  let distance := getDistanceBetweenUnits attacker target
  if attacker.name = "E1" ∧
      ((attacker.isDeployed = false ∧
        (distance ≤ ((deployedRangeOr5 attacker : ℚ) : ℝ) ∨ attacker.justFired = true)) ∨
       (attacker.isDeployed = true ∧ ((deployedRangeOr5 attacker : ℚ) : ℝ) < distance)) then
    ⟨attacker.id, OrderKind.DeploySelected, none, none⟩
  else ⟨attacker.id, OrderKind.Attack, none, some target.id⟩

/-- NavalSquad.calculateTargetWeight (part_005, lines 419-452).
COMBAT_UNIT_PRIORITY = 2.0, NAVAL_UNIT_PRIORITY = 1.8,
LOW_HEALTH_PRIORITY = 1.5, BUILDING_ATTACK_PRIORITY = 0.8,
NAVAL_YARD_PRIORITY = 2.0, NEARBY_TARGET_BONUS = 1.3; the health fraction
is rules.points / rules.strength (1 when strength is 0), and the final
linear decay crosses zero at 2.5 times the attacker range. -/
noncomputable def calculateTargetWeight (attacker target : URec)
    (inMajorBattle : Bool) : ℝ :=
  let distance := getDistanceBetweenUnits attacker target
  let maxRange := rangeNN attacker
  let w1 : ℝ :=
    if target.isSelectableCombatant = true then
      let w := (1 : ℝ) * 2.0
      let w :=
        if target.moveZone = MoveZone.Water then w * 1.8 else w
      let w :=
        if target.moveZone = MoveZone.AmphibiousDestroyer then w * (1.8 * 0.8) else w
      let healthPercentage : ℚ :=
        if 0 < target.strengthRules then target.pointsRules / target.strengthRules else 1
      w * (1 + (1 - (healthPercentage : ℝ)) * 1.5)
    else
      let w := (1 : ℝ) * 0.8
      if target.name = "NAYARD" then w * 2.0 else w
  let w2 := if distance ≤ (maxRange : ℝ) then w1 * 1.3 else w1
  w2 * (1 - distance / ((maxRange : ℝ) * 2.5))

/-- getNavalAttackWeight (part_005, lines 930-960, the standalone helper
of the second NavalSquad class): naval bonus 1.5, amphibious bonus 1.3,
in-range bonus 1.2, low-health factor (2 - healthPercentage), and a
linear decay crossing zero at 2 times the attacker range. -/
noncomputable def getNavalAttackWeight (attacker target : URec) : ℝ :=
  let distance := getDistanceBetweenUnits attacker target
  let maxRange := rangeNN attacker
  let w := (1 : ℝ)
  let w := if target.moveZone = MoveZone.Water then w * 1.5 else w
  let w := if target.moveZone = MoveZone.AmphibiousDestroyer then w * 1.3 else w
  let w := if distance ≤ (maxRange : ℝ) then w * 1.2 else w
  let healthPercentage : ℚ :=
    if 0 < target.strengthRules then target.pointsRules / target.strengthRules else 1
  let w := w * (2 - (healthPercentage : ℝ))
  w * (1 - distance / ((maxRange : ℝ) * 2))

/-- The weight of a candidate best, where a missing best counts as -1
(the seed of the null-seeded reduces of part_005, lines 463-468 and
489-493). -/
noncomputable def bwOf (unit : URec) (inMajorBattle : Bool) : Option URec → ℝ
  | some b => calculateTargetWeight unit b inMajorBattle
  | none => -1

/-- One step of the weight-maximising reduce of findBestTarget: keep the
candidate whose weight strictly beats the best so far. -/
noncomputable def bestStep (unit : URec) (inMajorBattle : Bool)
    (best : Option URec) (current : URec) : Option URec :=
  if bwOf unit inMajorBattle best < calculateTargetWeight unit current inMajorBattle then
    some current
  else best

/-- The null-seeded reduce of findBestTarget (part_005, lines 463-468 and
489-493). -/
noncomputable def reduceBestByWeight (unit : URec) (cands : List URec)
    (inMajorBattle : Bool) : Option URec :=
  cands.foldl (bestStep unit inMajorBattle) none

/-- NavalSquad.findBestTarget (part_005, lines 454-494): combat targets
are reduced by weight first; a NAYARD building inside weapon range
overrides the chosen combat target when that one sits beyond 1.5 times
the range; buildings are reduced by weight only when no combat target was
scanned.  (The allTargetsWithWeights binding of lines 458-461 is unused
in the source and therefore not modelled.) -/
noncomputable def findBestTarget (unit : URec) (targets : List URec)
    (inMajorBattle : Bool) : Option URec :=
  let combatTargets := targets.filter (fun t => t.isSelectableCombatant)
  let buildingTargets := targets.filter (fun t => !t.isSelectableCombatant)
  if combatTargets ≠ [] then
    let bestCombatTarget := reduceBestByWeight unit combatTargets inMajorBattle
    let nearbyBuilding := buildingTargets.find? (fun building =>
      getDistanceBetweenUnits unit building ≤ ((rangeNN unit : ℚ) : ℝ) ∧
      building.name = "NAYARD")
    match nearbyBuilding, bestCombatTarget with
    | some nb, some bc =>
        if getDistanceBetweenUnits unit nb ≤ ((rangeNN unit : ℚ) : ℝ) ∧
            ((rangeNN unit : ℚ) : ℝ) * 1.5 < getDistanceBetweenUnits unit bc then
          some nb
        else bestCombatTarget
    | _, _ => bestCombatTarget
  else reduceBestByWeight unit buildingTargets inMajorBattle

/-- One recorded position sample of the stuck detector (part_005, lines
47-51). -/
structure UnitPos where
  px : ℚ
  py : ℚ
  timestamp : ℤ

/-- Combat recency state (part_005, lines 53-57). -/
structure CombatSt where
  lastEngageTime : ℤ
  lastTargetId : Option ℤ
  lastPosition : Option Vec2

/-- Stuck-recovery state (part_005, lines 59-63). -/
structure StuckSt where
  attempts : ℕ
  lastAttemptTime : ℤ
  lastPosition : Vec2

/-- An aggregated battle of findMajorBattles (part_005, lines 72-77). -/
structure BattleInfo where
  position : Vec2
  unitCount : ℕ
  hasBuildings : Bool
  targets : List URec

/-- The mutable state of the richer NavalSquad class (part_005, lines
80-92; retreatStartTime is declared but never read and is omitted, and
the exploration angle state feeds only the abstracted exploration-target
search). -/
structure SquadSt where
  lastCommand : ℤ
  state : SquadState
  targetArea : Option Vec2
  lastOrderGiven : ℤ → Option BAction
  unitPositionHistory : ℤ → List UnitPos
  lastStuckCheck : ℤ
  unitCombatStates : ℤ → Option CombatSt
  stuckStates : ℤ → Option StuckSt
  lastPathfindingTime : ℤ → Option ℤ

/-- The per-update environment of the richer NavalSquad: engine tick, the
mission unit-id count, the resolved naval units, the positions feeding the
centroid of the Mission base class, the tile lookup at the centroid, the
player start location, and the external awareness/map queries the squad
makes: hostiles near a point (scan radius 25), the nearest hostile NAYARD
near a point (findNearbyNavalYard, an awareness reduce), the aggregated
major battles (findMajorBattles, an awareness aggregation), the water
searches of findValidWaterPosition / findBestWaterPosition (map searches,
keyed here by requesting unit or by the search arguments), the
terrain-at-tile lookup, the map size, the water openness of
evaluateWaterArea, the random-driven exploration target of
updateExplorationTarget, and the per-unit hostile check of the exploring
branch. -/
structure Env where
  currentTick : ℤ
  missionUnitIdsLen : ℕ
  units : List URec
  missionUnitPositions : List Vec2
  tileDefinedAtCom : Bool
  playerStartLocation : Vec2
  hostilesNear : Vec2 → List URec
  navalYardNear : Vec2 → Option URec
  majorBattles : List BattleInfo
  stuckWaterTarget : ℤ → Bool → Vec2
  stuckWaterFallback : ℤ → Vec2
  tileWaterAt : ℤ → ℤ → Bool
  tileDefinedAtR : ℝ → ℝ → Bool
  mapWidth : ℤ
  mapHeight : ℤ
  waterOpennessAt : Vec2 → ℝ
  bestWater : Vec2 → Vec2 → Bool → Vec2
  explorationTarget : ℤ → Vec2
  hostilesNearUnitNonempty : ℤ → Bool

/-- NavalSquad.clampToMapBoundaries (part_005, lines 192-199):
x into [1, width - 2] and y into [1, height - 2] through
Math.max(1, Math.min(Math.round(coordinate), bound)). -/
noncomputable def clampToMapBoundaries (w h : ℤ) (p : ℝ × ℝ) : Vec2 :=
  ⟨((max 1 (min (round p.1) (w - 2)) : ℤ) : ℚ),
   ((max 1 (min (round p.2) (h - 2)) : ℤ) : ℚ)⟩

/-- NavalSquad.isValidMapPosition (part_005, lines 187-190): the tile at
the rounded coordinates exists and is water (the oracle returns false for
a missing tile). -/
def isValidMapPosition (env : Env) (p : Vec2) : Bool :=
  env.tileWaterAt (round p.x) (round p.y)

/-- Record update for a unit-keyed map. -/
def setAt {α : Type} (m : ℤ → Option α) (i : ℤ) (v : α) : ℤ → Option α :=
  fun j => if j = i then some v else m j

/-- submitActionIfNew (part_005, lines 757-763 and 908-914): push the
action to the batcher only when the unit has no recorded previous order
or the recorded one differs; record the pushed action.  isSameAs lives in
the actionBatcher.ts that is not among the provided sources, so the
comparison is modelled from the spec (a repeat of the unit's immediately
preceding intent) as an arbitrary boolean comparison passed in. -/
def submitActionIfNew (same : BAction → BAction → Bool)
    (rec : ℤ → Option BAction) (action : BAction) :
    (ℤ → Option BAction) × List BAction :=
  match rec action.unitId with
  | some lastAction =>
      if same lastAction action then (rec, [])
      else (setAt rec action.unitId action, [action])
  | none => (setAt rec action.unitId action, [action])

/-- Sequence a list of submitActionIfNew calls, threading the
last-order-given record; the candidate actions of one update never read
the record, so the batched pushes of the update equal this fold. -/
def runSubmits (same : BAction → BAction → Bool)
    (rec : ℤ → Option BAction) : List BAction → (ℤ → Option BAction) × List BAction
  | [] => (rec, [])
  | a :: rest =>
      let s1 := submitActionIfNew same rec a
      let s2 := runSubmits same s1.1 rest
      (s2.1, s1.2 ++ s2.2)

/-- The de-duplication contract: each pushed action differs (under the
comparison) from the order recorded for its unit at the moment it was
pushed. -/
def dedupOK (same : BAction → BAction → Bool)
    (rec : ℤ → Option BAction) : List BAction → Prop
  | [] => True
  | a :: rest =>
      (∀ prev, rec a.unitId = some prev → same prev a = false) ∧
      dedupOK same (setAt rec a.unitId a) rest

theorem runSubmits_dedupOK (same : BAction → BAction → Bool) :
    ∀ (cands : List BAction) (rec : ℤ → Option BAction),
      dedupOK same rec (runSubmits same rec cands).2 := by
  intro cands
  induction cands with
  | nil => intro rec; trivial
  | cons a rest ih =>
      intro rec
      unfold runSubmits submitActionIfNew
      cases hrec : rec a.unitId with
      | some lastAction =>
          by_cases hsame : same lastAction a
          · simp only [hrec, if_pos hsame]
            exact ih rec
          · simp only [hrec, if_neg hsame]
            refine ⟨?_, ih (setAt rec a.unitId a)⟩
            intro prev hprev
            rw [hrec] at hprev
            obtain rfl : lastAction = prev := by injection hprev
            exact Bool.not_eq_true _ ▸ (by simpa using hsame)
      | none =>
          simp only [hrec]
          refine ⟨?_, ih (setAt rec a.unitId a)⟩
          intro prev hprev
          rw [hrec] at hprev
          exact Option.noConfusion hprev

/-- updateUnitPosition (part_005, lines 117-131): push the sample, then
shift until at most STUCK_THRESHOLD = 3 samples remain. -/
def pushHistory (hist : List UnitPos) (p : UnitPos) : List UnitPos :=
  let h := hist ++ [p]
  if 3 < h.length then h.drop (h.length - 3) else h

/-- The consecutive-sample distance check of isUnitStuck (part_005,
lines 104-114): every consecutive pair within STUCK_DISTANCE_THRESHOLD =
0.5. -/
def pairsWithin : List UnitPos → Bool
  | a :: b :: rest =>
      decide (distLE ⟨a.px, a.py⟩ ⟨b.px, b.py⟩ (1/2)) && pairsWithin (b :: rest)
  | _ => true

/-- isUnitStuck (part_005, lines 98-115): at least 3 samples, all
consecutive displacements of the last 3 within the threshold. -/
def isUnitStuck (hist : List UnitPos) : Bool :=
  if hist.length < 3 then false
  else pairsWithin (hist.drop (hist.length - 3))

/-- handleStuckUnit (part_005, lines 133-185).  The attempt counter
escalates when a full 2 * STUCK_CHECK_INTERVAL window passed without
displacement; findValidWaterPosition (a map search) is the
stuckWaterTarget / stuckWaterFallback oracle; when the direction to the
water target is nonzero the target is projected RETREAT_DISTANCE = 8
times (attempts + 1) farther along it and clamped; an invalid final tile
falls back to the second water search; the unit is then ordered to move
and its pathfinding timer starts. -/
noncomputable def handleStuckUnit (env : Env) (ss : ℤ → Option StuckSt)
    (pf : ℤ → Option ℤ) (unit : URec) (currentTick : ℤ) :
    (ℤ → Option StuckSt) × (ℤ → Option ℤ) × BAction :=
  let st0 := (ss unit.id).getD ⟨0, currentTick, unit.tile⟩
  let st1 :=
    if 120 < currentTick - st0.lastAttemptTime then
      { attempts :=
          if getDistanceBetweenPoints unit.tile st0.lastPosition < ((1/2 : ℚ) : ℝ) then
            st0.attempts + 1
          else st0.attempts,
        lastAttemptTime := currentTick,
        lastPosition := unit.tile }
    else st0
  let shouldFindOpenWater := 3 ≤ st1.attempts
  let rt0 := env.stuckWaterTarget unit.id shouldFindOpenWater
  let len := getDistanceBetweenPoints rt0 unit.tile
  let rt1 : Vec2 :=
    if 0 < len then
      clampToMapBoundaries env.mapWidth env.mapHeight
        ((rt0.x : ℝ) + ((rt0.x - unit.tile.x : ℚ) : ℝ) / len * 8 * ((st1.attempts : ℝ) + 1),
         (rt0.y : ℝ) + ((rt0.y - unit.tile.y : ℚ) : ℝ) / len * 8 * ((st1.attempts : ℝ) + 1))
    else rt0
  let rt2 := if isValidMapPosition env rt1 = false then env.stuckWaterFallback unit.id else rt1
  (setAt ss unit.id st1, setAt pf unit.id currentTick, manageMoveMicro unit (vecR rt2))

/-- The stuck-monitoring gate of part_005 line 620:
currentTick > lastStuckCheck + STUCK_CHECK_INTERVAL (60). -/
def stuckGate (env : Env) (st : SquadSt) : Prop :=
  st.lastStuckCheck + 60 < env.currentTick

/-- The command-tick gate of part_005 lines 636-639: the mission owns
units, and either no command was ever issued (lastCommand = 0, falsy) or
TARGET_UPDATE_INTERVAL_TICKS = 15 ticks have passed. -/
def commandGate (env : Env) (st : SquadSt) : Prop :=
  0 < env.missionUnitIdsLen ∧
    (st.lastCommand = 0 ∨ st.lastCommand + 15 < env.currentTick)

/-- The body of the per-unit loop of the stuck-monitoring block
(part_005, lines 628-633): record the position sample, and when the unit
is stuck run handleStuckUnit, collecting its move candidate. -/
noncomputable def stuckStepUnit (env : Env) (acc : SquadSt × List BAction)
    (unit : URec) : SquadSt × List BAction :=
  let st := acc.1
  let hist := pushHistory (st.unitPositionHistory unit.id)
    ⟨unit.tile.x, unit.tile.y, env.currentTick⟩
  let st1 := { st with unitPositionHistory := fun i =>
    if i = unit.id then hist else st.unitPositionHistory i }
  if isUnitStuck hist then
    let h := handleStuckUnit env st1.stuckStates st1.lastPathfindingTime unit env.currentTick
    ({ st1 with stuckStates := h.1, lastPathfindingTime := h.2.1 },
     acc.2 ++ [h.2.2])
  else (st1, acc.2)

/-- The stuck-monitoring block of onAiUpdate (part_005, lines 620-634):
on its own 60-tick interval, every unit gets a fresh position sample and
stuck units go through handleStuckUnit. -/
noncomputable def stuckPhase (env : Env) (st : SquadSt) : SquadSt × List BAction :=
  if stuckGate env st then
    env.units.foldl (stuckStepUnit env) ({ st with lastStuckCheck := env.currentTick }, [])
  else (st, [])

/-- isPathfindingInProgress (part_005, lines 777-781): no recorded start
(or the falsy recorded value 0) means not pathfinding; otherwise within
PATHFINDING_WAIT_TICKS = 45 of the start. -/
def isPathfindingInProgress (pf : ℤ → Option ℤ) (unitId currentTick : ℤ) : Bool :=
  match pf unitId with
  | none => false
  | some t => if t = 0 then false else decide (currentTick - t < 45)

/-- getFormationOffset (part_005, lines 295-302): radius
clamp(n / 3, 1, 3), angle 2 pi i / n. -/
noncomputable def getFormationOffset (index totalUnits : ℕ) : ℝ × ℝ :=
  let radius : ℚ := min 3 (max 1 ((totalUnits : ℚ) / 3))
  let angle : ℝ := ((index : ℝ) * 2 * Real.pi) / (totalUnits : ℝ)
  (Real.cos angle * (radius : ℝ), Real.sin angle * (radius : ℝ))

/-- moveUnitsInFormation (part_005, lines 304-331): re-target to open
water when the point is too closed, clamp, then order each unit that is
not pathfinding to its clamped (and, when on invalid terrain, re-searched)
formation slot, starting its pathfinding timer. -/
noncomputable def moveUnitsInFormation (env : Env) (pf : ℤ → Option ℤ)
    (units : List URec) (targetPoint0 : Vec2) (currentTick : ℤ) :
    (ℤ → Option ℤ) × List BAction :=
  let tp1 := if env.waterOpennessAt targetPoint0 < 5 then
      env.bestWater targetPoint0 targetPoint0 true
    else targetPoint0
  let tp := clampToMapBoundaries env.mapWidth env.mapHeight (vecR tp1)
  (units.enum).foldl (fun (acc : (ℤ → Option ℤ) × List BAction) iu =>
    if isPathfindingInProgress acc.1 iu.2.id currentTick then acc
    else
      let offset := getFormationOffset iu.1 units.length
      let ut0 : ℝ × ℝ := ((tp.x : ℝ) + offset.1, (tp.y : ℝ) + offset.2)
      let ut1 := clampToMapBoundaries env.mapWidth env.mapHeight ut0
      let ut2 := if isValidMapPosition env ut1 = false then env.bestWater ut1 tp true else ut1
      (setAt acc.1 iu.2.id currentTick, acc.2 ++ [manageMoveMicro iu.2 (vecR ut2)]))
    (pf, [])

/-- updateCombatState (part_005, lines 333-345): create the entry on
first contact (engage time = now), refresh the engage time when a target
was found, and always record the position. -/
def updateCombatState (cs : ℤ → Option CombatSt) (unit : URec)
    (currentTick : ℤ) (hasTarget : Bool) : ℤ → Option CombatSt :=
  let st0 := (cs unit.id).getD ⟨currentTick, none, none⟩
  let st1 := if hasTarget then { st0 with lastEngageTime := currentTick } else st0
  let st2 := { st1 with lastPosition := some unit.tile }
  setAt cs unit.id st2

/-- findNearestEngagedAlly (part_005, lines 347-368): the closest other
unit whose combat state shows an engagement within
MAX_IDLE_COMBAT_TICKS = 150. -/
noncomputable def findNearestEngagedAlly (cs : ℤ → Option CombatSt)
    (unit : URec) (units : List URec) (currentTick : ℤ) : Option URec :=
  (units.foldl (fun (acc : Option (URec × ℝ)) ally =>
    if ally.id = unit.id then acc
    else
      match cs ally.id with
      | none => acc
      | some allyState =>
          if currentTick - allyState.lastEngageTime < 150 then
            let d := getDistanceBetweenUnits unit ally
            match acc with
            | none => some (ally, d)
            | some (_, nd) => if d < nd then some (ally, d) else acc
          else acc) none).map Prod.fst

/-- The distance-minimising reduce over major battles (part_005, lines
547-556). -/
noncomputable def nearestBattleTo (unit : URec) (battles : List BattleInfo) :
    Option (BattleInfo × ℝ) :=
  battles.foldl (fun acc battle =>
    let d := getDistanceBetweenPoints unit.tile battle.position
    match acc with
    | none => some (battle, d)
    | some (_, nd) => if d < nd then some (battle, d) else acc) none

/-- units.indexOf(unit) of part_005 line 597, by unit id (the unit is
always a member there). -/
def idxOfUnit (units : List URec) (u : URec) : ℕ :=
  units.findIdx (fun x => decide (x.id = u.id))

/-- NavalSquad.handleCombat (part_005, lines 524-607): attack a nearby
enemy naval yard when no combat hostile is around; join the nearest major
battle within MAJOR_BATTLE_SUPPORT_RANGE = 40 when no hostile is in the
own scan; otherwise attack the best target, and with none, fall back in
order to supporting the nearest recently engaged ally, an autonomous
radial search move (unit.id degrees, SUPPORT_ATTACK_RANGE = 25 far) after
MAX_IDLE_COMBAT_TICKS = 150 idle ticks, or the formation slot around the
target point.  Returns the updated combat states and the submitted
candidate actions. -/
noncomputable def handleCombat (env : Env) (cs : ℤ → Option CombatSt)
    (unit : URec) (nearbyHostiles : List URec) (units : List URec)
    (currentTick : ℤ) (targetPoint : Vec2) :
    (ℤ → Option CombatSt) × List BAction :=
  let generalCombat : (ℤ → Option CombatSt) × List BAction :=
    match findBestTarget unit nearbyHostiles false with
    | some bestTarget =>
        (updateCombatState cs unit currentTick true, [manageAttackMicro unit bestTarget])
    | none =>
        let cand :=
          match findNearestEngagedAlly cs unit units currentTick with
          | some ally => manageMoveMicro unit (vecR ally.tile)
          | none =>
              match cs unit.id with
              | some cstate =>
                  if 150 < currentTick - cstate.lastEngageTime then
                    let searchAngle : ℝ := ((unit.id % 360 : ℤ) : ℝ) * (Real.pi / 180)
                    manageMoveMicro unit
                      ((unit.tile.x : ℝ) + Real.cos searchAngle * 25,
                       (unit.tile.y : ℝ) + Real.sin searchAngle * 25)
                  else
                    let offset := getFormationOffset (idxOfUnit units unit) units.length
                    manageMoveMicro unit
                      ((targetPoint.x : ℝ) + offset.1, (targetPoint.y : ℝ) + offset.2)
              | none =>
                  let offset := getFormationOffset (idxOfUnit units unit) units.length
                  manageMoveMicro unit
                    ((targetPoint.x : ℝ) + offset.1, (targetPoint.y : ℝ) + offset.2)
        (updateCombatState cs unit currentTick false, [cand])
  match env.navalYardNear unit.tile with
  | some yard =>
      if nearbyHostiles.filter (fun h => h.isSelectableCombatant) = [] then
        (updateCombatState cs unit currentTick true, [manageAttackMicro unit yard])
      else
        if env.majorBattles ≠ [] ∧ nearbyHostiles = [] then
          match nearestBattleTo unit env.majorBattles with
          | some nb =>
              if nb.2 ≤ 40 then
                match findBestTarget unit nb.1.targets true with
                | some bt =>
                    (updateCombatState cs unit currentTick true, [manageAttackMicro unit bt])
                | none => generalCombat
              else generalCombat
          | none => generalCombat
        else generalCombat
  | none =>
      if env.majorBattles ≠ [] ∧ nearbyHostiles = [] then
        match nearestBattleTo unit env.majorBattles with
        | some nb =>
            if nb.2 ≤ 40 then
              match findBestTarget unit nb.1.targets true with
              | some bt =>
                  (updateCombatState cs unit currentTick true, [manageAttackMicro unit bt])
              | none => generalCombat
            else generalCombat
        | none => generalCombat
      else generalCombat

/-- The range key of the attack-leader reduce (part_005, lines 680-682):
primaryWeapon?.maxRange ?? 5. -/
def attackLeaderRange (u : URec) : ℚ := u.primaryRange.getD 5

/-- The command-tick block of the richer NavalSquad onAiUpdate (part_005,
lines 636-752): set lastCommand, then dispatch on the squad state;
Gathering moves units into formation at the centroid while the radius
guard holds and otherwise flips to Attacking; Attacking reverts to
Gathering past the larger radius, otherwise scans from the shortest-range
leader and either moves the squad (no hostiles: toward a found naval yard
or the target point; only structures: toward the first hostile) or runs
per-unit combat; Exploring moves each unit to its exploration slot and
flips to Attacking when any unit sees hostiles. -/
noncomputable def commandPhase (env : Env) (st : SquadSt) : SquadSt × List BAction :=
  if commandGate env st then
    let st := { st with lastCommand := env.currentTick }
    let com := getCenterOfMass env.missionUnitPositions
    let maxD := getMaxDistanceToCenterOfMass env.missionUnitPositions
    let units := env.units
    if st.state = SquadState.Gathering then
      if squadRadiusGuard com maxD env.tileDefinedAtCom
          (Real.sqrt units.length * 2 + 3) then
        match com with
        | some c =>
            let m := moveUnitsInFormation env st.lastPathfindingTime units c env.currentTick
            ({ st with lastPathfindingTime := m.1 }, m.2)
        | none => (st, [])
      else ({ st with state := SquadState.Attacking }, [])
    else if st.state = SquadState.Attacking then
      let targetPoint := st.targetArea.getD env.playerStartLocation
      if squadRadiusGuard com maxD env.tileDefinedAtCom
          (Real.sqrt units.length * 2 + 6) then
        ({ st with state := SquadState.Gathering }, [])
      else
        match units with
        | [] => (st, [])
        | u0 :: rest =>
            let attackLeader := rest.foldl
              (fun a b => if attackLeaderRange a < attackLeaderRange b then a else b) u0
            let nearbyHostiles := env.hostilesNear attackLeader.tile
            match nearbyHostiles with
            | [] =>
                (match env.navalYardNear attackLeader.tile with
                 | some yard =>
                     let m := moveUnitsInFormation env st.lastPathfindingTime units
                       yard.tile env.currentTick
                     ({ st with lastPathfindingTime := m.1 }, m.2)
                 | none =>
                     let m := moveUnitsInFormation env st.lastPathfindingTime units
                       targetPoint env.currentTick
                     ({ st with lastPathfindingTime := m.1 }, m.2))
            | h0 :: _ =>
                if nearbyHostiles.all (fun x => !x.isSelectableCombatant) then
                  let m := moveUnitsInFormation env st.lastPathfindingTime units
                    h0.tile env.currentTick
                  ({ st with lastPathfindingTime := m.1 }, m.2)
                else
                  let r := units.foldl
                    (fun (acc : (ℤ → Option CombatSt) × List BAction) u =>
                      let hcr := handleCombat env acc.1 u nearbyHostiles units
                        env.currentTick targetPoint
                      (hcr.1, acc.2 ++ hcr.2)) (st.unitCombatStates, [])
                  ({ st with unitCombatStates := r.1 }, r.2)
    else if st.state = SquadState.Exploring then
      let r := (units.enum).foldl (fun (acc : SquadState × List BAction) iu =>
        let baseTarget := env.explorationTarget iu.2.id
        let offset := getFormationOffset iu.1 units.length
        let explTarget : ℝ × ℝ :=
          ((baseTarget.x : ℝ) + offset.1, (baseTarget.y : ℝ) + offset.2)
        let acc1 : SquadState × List BAction :=
          if env.tileDefinedAtR explTarget.1 explTarget.2 then
            (acc.1, acc.2 ++ [manageMoveMicro iu.2 explTarget])
          else acc
        if env.hostilesNearUnitNonempty iu.2.id then (SquadState.Attacking, acc1.2)
        else acc1) (st.state, [])
      ({ st with state := r.1 }, r.2)
    else (st, [])
  else (st, [])

/-- NavalSquad.onAiUpdate of the richer class (part_005, lines 609-755):
the stuck-monitoring block, then the command-tick block; every
submitActionIfNew call of either block goes through the shared
lastOrderGiven record (none of the candidate computations read it, so the
pushed batch equals the fold over the collected candidates). -/
noncomputable def onAiUpdateA (same : BAction → BAction → Bool) (env : Env)
    (st : SquadSt) : SquadSt × List BAction :=
  let p1 := stuckPhase env st
  let p2 := commandPhase env p1.1
  let r := runSubmits same p2.1.lastOrderGiven (p1.2 ++ p2.2)
  ({ p2.1 with lastOrderGiven := r.1 }, r.2)

/-- Fold invariance helper. -/
theorem foldl_invariant {α : Type _} {β : Type _} (P : α → Prop) (f : α → β → α)
    (hf : ∀ a b, P a → P (f a b)) :
    ∀ (l : List β) (a : α), P a → P (List.foldl f a l) := by
  intro l
  induction l with
  | nil => intro a ha; exact ha
  | cons b rest ih => intro a ha; exact ih (f a b) (hf a b ha)

theorem stuckStepUnit_lastOrderGiven (env : Env) (acc : SquadSt × List BAction)
    (unit : URec) :
    (stuckStepUnit env acc unit).1.lastOrderGiven = acc.1.lastOrderGiven := by
  unfold stuckStepUnit
  dsimp only
  split <;> rfl

theorem stuckStepUnit_lastCommand (env : Env) (acc : SquadSt × List BAction)
    (unit : URec) :
    (stuckStepUnit env acc unit).1.lastCommand = acc.1.lastCommand := by
  unfold stuckStepUnit
  dsimp only
  split <;> rfl

theorem stuckPhase_lastOrderGiven (env : Env) (st : SquadSt) :
    (stuckPhase env st).1.lastOrderGiven = st.lastOrderGiven := by
  unfold stuckPhase
  split
  · refine foldl_invariant
      (fun (acc : SquadSt × List BAction) => acc.1.lastOrderGiven = st.lastOrderGiven)
      (stuckStepUnit env) ?_ env.units _ rfl
    intro a b ha
    show (stuckStepUnit env a b).1.lastOrderGiven = st.lastOrderGiven
    rw [stuckStepUnit_lastOrderGiven]
    exact ha
  · rfl

theorem stuckPhase_lastCommand (env : Env) (st : SquadSt) :
    (stuckPhase env st).1.lastCommand = st.lastCommand := by
  unfold stuckPhase
  split
  · refine foldl_invariant
      (fun (acc : SquadSt × List BAction) => acc.1.lastCommand = st.lastCommand)
      (stuckStepUnit env) ?_ env.units _ rfl
    intro a b ha
    show (stuckStepUnit env a b).1.lastCommand = st.lastCommand
    rw [stuckStepUnit_lastCommand]
    exact ha
  · rfl

theorem commandPhase_lastOrderGiven (env : Env) (st : SquadSt) :
    (commandPhase env st).1.lastOrderGiven = st.lastOrderGiven := by
  unfold commandPhase
  split
  · dsimp only
    split
    · split
      · split <;> rfl
      · rfl
    · split
      · split
        · rfl
        · split
          · rfl
          · split
            · split <;> rfl
            · split <;> rfl
      · split
        · rfl
        · rfl
  · rfl

theorem bwOf_foldl_mono (unit : URec) (b : Bool) :
    ∀ (l : List URec) (acc : Option URec),
      bwOf unit b acc ≤ bwOf unit b (l.foldl (bestStep unit b) acc) := by
  intro l
  induction l with
  | nil => intro acc; exact le_rfl
  | cons c rest ih =>
      intro acc
      refine le_trans ?_ (ih (bestStep unit b acc c))
      unfold bestStep
      split
      · next h => exact le_of_lt h
      · exact le_rfl

theorem weight_le_bwOf_foldl (unit : URec) (b : Bool) :
    ∀ (l : List URec) (acc : Option URec) (x : URec), x ∈ l →
      calculateTargetWeight unit x b ≤
        bwOf unit b (l.foldl (bestStep unit b) acc) := by
  intro l
  induction l with
  | nil => intro acc x hx; cases hx
  | cons c rest ih =>
      intro acc x hx
      rcases List.mem_cons.mp hx with rfl | hx2
      · refine le_trans ?_ (bwOf_foldl_mono unit b rest (bestStep unit b acc x))
        unfold bestStep
        split
        · exact le_rfl
        · next h => exact not_lt.mp h
      · exact ih (bestStep unit b acc c) x hx2

theorem foldl_bestStep_mem (unit : URec) (b : Bool) :
    ∀ (l : List URec) (acc : Option URec) (r : URec),
      l.foldl (bestStep unit b) acc = some r → r ∈ l ∨ acc = some r := by
  intro l
  induction l with
  | nil => intro acc r h; exact Or.inr h
  | cons c rest ih =>
      intro acc r h
      rcases ih (bestStep unit b acc c) r h with hmem | hacc
      · exact Or.inl (List.mem_cons_of_mem _ hmem)
      · unfold bestStep at hacc
        split at hacc
        · obtain rfl : c = r := by injection hacc
          exact Or.inl (List.mem_cons_self _ _)
        · exact Or.inr hacc

theorem reduceBestByWeight_le (unit : URec) (b : Bool) (l : List URec) (x : URec)
    (hx : x ∈ l) :
    calculateTargetWeight unit x b ≤ bwOf unit b (reduceBestByWeight unit l b) :=
  weight_le_bwOf_foldl unit b l none x hx

theorem reduceBestByWeight_mem (unit : URec) (b : Bool) (l : List URec) (r : URec)
    (h : reduceBestByWeight unit l b = some r) : r ∈ l := by
  rcases foldl_bestStep_mem unit b l none r h with hmem | hacc
  · exact hmem
  · exact Option.noConfusion hacc

/-- Concrete units for the weight-selection counterexample: an attacker
with weapon range 5, a full-health combat unit 11 tiles away, and a
NAYARD structure 6 tiles away. -/
def c8Attacker : URec :=
  ⟨1, "DEST", ⟨0, 0⟩, true, MoveZone.Water, 100, 100, some 5, none,
   false, false, false, false⟩

def c8Combat : URec :=
  ⟨2, "SUB", ⟨11, 0⟩, true, MoveZone.Other, 100, 100, some 5, none,
   false, false, false, false⟩

def c8Yard : URec :=
  ⟨3, "NAYARD", ⟨6, 0⟩, false, MoveZone.Other, 1000, 1000, none, none,
   false, false, true, false⟩

/-- Concrete data for the unclamped-combat-move counterexample: a unit
with id 0 near the right edge of a 30-wide map, and one hostile 20 tiles
away (so far that its weight falls below the reduce seed -1). -/
def c9Unit : URec :=
  ⟨0, "DEST", ⟨28, 0⟩, true, MoveZone.Water, 100, 100, some 5, none,
   false, false, false, false⟩

def c9Hostile : URec :=
  ⟨7, "SUB", ⟨8, 0⟩, true, MoveZone.Other, 100, 100, some 5, none,
   false, false, false, false⟩

def c9Env : Env :=
  ⟨200, 1, [c9Unit], [⟨28, 0⟩], true, ⟨0, 0⟩, fun _ => [c9Hostile],
   fun _ => none, [], fun _ _ => ⟨0, 0⟩, fun _ => ⟨0, 0⟩, fun _ _ => true,
   fun _ _ => true, 30, 30, fun _ => 10, fun a _ _ => a, fun _ => ⟨0, 0⟩,
   fun _ => false⟩

def c9CombatStates : ℤ → Option CombatSt :=
  fun i => if i = 0 then some ⟨0, none, none⟩ else none

/-- Concrete data for the stuck-tick submission counterexample: one unit
stationary at the origin whose position history already holds two
samples, a stuck check due at tick 183, and a command tick not due until
tick 194. -/
def c6Unit : URec :=
  ⟨0, "DEST", ⟨0, 0⟩, true, MoveZone.Water, 100, 100, some 5, none,
   false, false, false, false⟩

def c6Env : Env :=
  ⟨183, 1, [c6Unit], [⟨0, 0⟩], true, ⟨0, 0⟩, fun _ => [], fun _ => none,
   [], fun _ _ => ⟨0, 0⟩, fun _ => ⟨0, 0⟩, fun _ _ => true, fun _ _ => true,
   30, 30, fun _ => 10, fun a _ _ => a, fun _ => ⟨0, 0⟩, fun _ => false⟩

def c6St : SquadSt :=
  ⟨178, SquadState.Attacking, some ⟨5, 5⟩, fun _ => none,
   fun i => if i = 0 then [⟨0, 0, 61⟩, ⟨0, 0, 122⟩] else [], 122,
   fun _ => none, fun _ => none, fun _ => none⟩

/-- Concrete data for the throttling witness: neither the stuck gate nor
the command gate is open at tick 10. -/
def c6wEnv : Env :=
  ⟨10, 1, [], [], true, ⟨0, 0⟩, fun _ => [], fun _ => none, [],
   fun _ _ => ⟨0, 0⟩, fun _ => ⟨0, 0⟩, fun _ _ => true, fun _ _ => true,
   30, 30, fun _ => 10, fun a _ _ => a, fun _ => ⟨0, 0⟩, fun _ => false⟩

def c6wSt : SquadSt :=
  ⟨5, SquadState.Gathering, none, fun _ => none, fun _ => [], 0,
   fun _ => none, fun _ => none, fun _ => none⟩

end NavalSquad

namespace NavalMission

/-- NavalMission.clampToMapBoundaries (part_004, lines 156-161):
x into [2, width - 3] and y into [2, height - 3] through
Math.max(2, Math.min(Math.round(coordinate), bound)). -/
noncomputable def clampToMapBoundaries (w h : ℤ) (p : ℝ × ℝ) : Vec2 :=
  ⟨((max 2 (min (round p.1) (w - 3)) : ℤ) : ℚ),
   ((max 2 (min (round p.2) (h - 3)) : ℤ) : ℚ)⟩

end NavalMission

/-!
## Theorems for claims C10, C5, C3
-/

/-- Claim C10: BasicGroundUnit.getPriority returns 0 for every input state,
both when the per-type global cap is reached and when it is not, so every
unit type governed by BasicGroundUnit reports production priority 0
regardless of its configured base priority, and priority 0 means the unit
is never prioritised for production. -/
theorem C10_basic_ground_unit_priority_zero :
    (∀ (cfg : BasicGroundUnit.Config) (currentCount : ℤ),
        BasicGroundUnit.getPriority cfg currentCount = 0) ∧
    (∀ row ∈ basicGroundUnitRows, ∀ (currentCount : ℤ),
        BasicGroundUnit.getPriority row.2 currentCount = 0 ∧
        ¬ prioritisedForProduction (BasicGroundUnit.getPriority row.2 currentCount)) := by
  have hzero : ∀ (cfg : BasicGroundUnit.Config) (currentCount : ℤ),
      BasicGroundUnit.getPriority cfg currentCount = 0 := by
    intro cfg cnt
    unfold BasicGroundUnit.getPriority
    cases cfg.maxGlobalCount with
    | none => rfl
    | some m => by_cases h : m ≤ cnt <;> simp [h]
  refine ⟨hzero, ?_⟩
  intro row _ cnt
  refine ⟨hzero row.2 cnt, ?_⟩
  rw [hzero row.2 cnt]
  unfold prioritisedForProduction
  norm_num

/-- Claim C10 witness: a concrete instantiation, at the GI configuration
with 3 owned units. -/
theorem C10_basic_ground_unit_priority_zero_witness :
    BasicGroundUnit.getPriority ⟨2, 2, 1/5, 0, none⟩ 3 = 0 ∧
    ¬ prioritisedForProduction (BasicGroundUnit.getPriority ⟨1, 1, 0, 0, none⟩ 0) :=
  ⟨C10_basic_ground_unit_priority_zero.1 ⟨2, 2, 1/5, 0, none⟩ 3,
   (C10_basic_ground_unit_priority_zero.2 ("DOG", ⟨1, 1, 0, 0, none⟩)
      (by decide) 0).2⟩

/-- Claim C5 counterexample: the factory sets lastScoutAt only when
addMission FAILS.  Starting from the initial state lastScoutAt = -300, a
mission is successfully created at tick 0 (addMission returns true), the
cooldown field is left untouched, and a second mission is created at
tick 1, well before tick 0 + 300. -/
theorem C5_scout_cooldown_cex :
    (scoutFactoryStep (-300) 0 true true).2 = true ∧
    (scoutFactoryStep (scoutFactoryStep (-300) 0 true true).1 1 true true).2 = true ∧
    (1 : ℤ) < 0 + 300 := by decide

/-- Claim C5 amended: the 300-tick scout cooldown starts when the factory
attempt FAILS (addMission returns false because a scouting mission already
exists), not when a mission is successfully created; a creation can only
happen at least 300 ticks after the recorded lastScoutAt, and lastScoutAt
changes only on a failed addMission call. -/
theorem C5_scout_cooldown_amended :
    ∀ (lastScoutAt currentTick : ℤ) (hasTargets addOk : Bool),
      ((scoutFactoryStep lastScoutAt currentTick hasTargets addOk).2 = true →
        lastScoutAt + 300 ≤ currentTick) ∧
      ((scoutFactoryStep lastScoutAt currentTick hasTargets addOk).1 ≠ lastScoutAt →
        (scoutFactoryStep lastScoutAt currentTick hasTargets addOk).1 = currentTick ∧
        (scoutFactoryStep lastScoutAt currentTick hasTargets addOk).2 = false ∧
        addOk = false) := by
  intro la t ht ok
  unfold scoutFactoryStep
  by_cases h1 : t < la + 300
  · simp [h1]
  · cases ht with
    | false => simp [h1]
    | true =>
        cases ok with
        | false =>
            simp only [h1, if_false, Bool.not_true, Bool.not_false, if_true, ite_true, ite_false]
            constructor
            · intro h; simp at h
            · intro _; simp
        | true =>
            simp only [h1, Bool.not_true, Bool.not_false]
            constructor
            · intro _; omega
            · intro h; simp at h

/-- Claim C5 witness: the amended theorem applied at the initial state,
tick 0, with targets available and a successful creation. -/
theorem C5_scout_cooldown_amended_witness :
    (scoutFactoryStep (-300) 0 true true).2 = true ∧ (-300 : ℤ) + 300 ≤ 0 :=
  ⟨rfl, (C5_scout_cooldown_amended (-300) 0 true true).1 rfl⟩

/-- Claim C3: the part_004 NavalMission does NOT measure its timeouts in
engine ticks.  The constructor stores Date.now() (wall clock) in
missionStartTime and leaves lastProgressTime = 0, so on the very first
update after the centroid exists (here: engine tick 100, wall clock
1700000001500 ms), shouldCancelMission already reports true through the
no-progress branch, although only 100 ticks have elapsed since mission
start and since the last progress on the tick counter, far below the
1800-tick and 600-tick budgets the claim describes. -/
theorem C3_tick_measured_timeouts_cex :
    NavalMission.shouldCancelMission
      (NavalMission.checkMissionProgress
        (NavalMission.mkTimers 1700000000000) ⟨0, 0⟩ 1700000001500).1
      100 1700000001500 = true ∧
    ((100 : ℤ) - 0 ≤ 1800) ∧ ((100 : ℤ) - 0 ≤ 600) := by decide

/-- Claim C1 counterexample: with the lock-age at 0 ticks (far below 150),
an empty recent-target memory and a current target that no longer has any
hostile near it, shouldSwitchTarget still accepts a candidate scoring 10
against a current score of 0, so a switch can occur before the 150-tick
lock has elapsed, contradicting the only-if direction of the claim. -/
theorem C1_target_switch_cex :
    AttackMission.shouldSwitchTarget ⟨0, 0, []⟩ 0 0 ⟨0, 0⟩
      [⟨"ENEMYTANK", false, true⟩] none ∧
    (0 : ℤ) - (0 : ℤ) < 150 := by
  constructor
  · unfold AttackMission.shouldSwitchTarget
    rw [if_neg (by simp), if_neg (by simp)]
    show AttackMission.evaluateTarget _ _ _ > _
    unfold AttackMission.evaluateTarget
    norm_num [List.foldl]
  · norm_num

/-- Claim C1 amended: in the Attacking state a candidate replaces the
current target if and only if all of these hold: the 150-tick lock has
elapsed OR the current target no longer has any hostile within the mission
radius; the candidate lies outside the exclusion box (|dx| < 5 and
|dy| < 5) of each of the (at most 3) recently visited targets; and the
candidate evaluated score exceeds the current score times 1.3.  The
recent-target memory never grows beyond 3 entries. -/
theorem C1_target_switch_amended :
    (∀ (st : AttackMission.TargetState) (currentTick : ℤ)
        (hostilesNearCurrentCount : ℕ) (newTarget : Vec2)
        (newTargetHostiles : List AttackMission.HostileData) (com : Option Vec2),
      AttackMission.shouldSwitchTarget st currentTick hostilesNearCurrentCount
          newTarget newTargetHostiles com ↔
        ((150 ≤ currentTick - st.currentTargetLockTime ∨ hostilesNearCurrentCount = 0) ∧
         (∀ r ∈ st.recentTargets, ¬ (|r.x - newTarget.x| < 5 ∧ |r.y - newTarget.y| < 5)) ∧
         st.currentTargetScore * (13/10) <
           AttackMission.evaluateTarget newTargetHostiles com newTarget)) ∧
    (∀ (recent : List Vec2) (newTarget : Vec2), recent.length ≤ 3 →
        (AttackMission.updateTargetRecent recent newTarget).length ≤ 3) := by
  constructor
  · intro st tick cnt tgt hs com
    unfold AttackMission.shouldSwitchTarget
    have h13 : (1 + 3/10 : ℝ) = 13/10 := by norm_num
    by_cases h1 : tick - st.currentTargetLockTime < 150 ∧ 0 < cnt
    · rw [if_pos h1]
      simp only [false_iff]
      rintro ⟨hor, -, -⟩
      rcases hor with h | h
      · omega
      · omega
    · rw [if_neg h1]
      by_cases h2 : ∃ r ∈ st.recentTargets, |r.x - tgt.x| < 5 ∧ |r.y - tgt.y| < 5
      · rw [if_pos h2]
        simp only [false_iff]
        rintro ⟨-, hall, -⟩
        obtain ⟨r, hr, hbox⟩ := h2
        exact hall r hr hbox
      · rw [if_neg h2]
        push_neg at h2
        constructor
        · intro hgt
          refine ⟨?_, ?_, ?_⟩
          · rcases not_and_or.mp h1 with h | h
            · exact Or.inl (by omega)
            · exact Or.inr (by omega)
          · intro r hr hbox
            exact absurd hbox.2 (not_lt.mpr (h2 r hr hbox.1))
          · rw [← h13]; exact hgt
        · rintro ⟨-, -, hlt⟩
          show _ > _
          rw [h13]
          exact hlt
  · intro recent tgt hlen
    unfold AttackMission.updateTargetRecent
    by_cases h : 3 < (recent ++ [tgt]).length
    · rw [if_pos h]
      simp only [List.length_drop, List.length_append, List.length_singleton]
      omega
    · rw [if_neg h]
      simp only [List.length_append, List.length_singleton] at h ⊢
      omega

/-- Claim C1 witness: a concrete switch accepted by the amended rule, with
the lock elapsed (tick 200), an empty memory, a candidate scoring 10 and a
current score of 0. -/
theorem C1_target_switch_amended_witness :
    AttackMission.shouldSwitchTarget ⟨0, 0, []⟩ 200 5 ⟨0, 0⟩
      [⟨"ENEMYTANK", false, true⟩] none :=
  (C1_target_switch_amended.1 ⟨0, 0, []⟩ 200 5 ⟨0, 0⟩
      [⟨"ENEMYTANK", false, true⟩] none).mpr
    ⟨Or.inl (by norm_num), by simp,
     by unfold AttackMission.evaluateTarget; norm_num [List.foldl]⟩

/-- Claim C7: in the Preparing state the scatter check fires exactly when
the mission has at least 2 naval units, a defined centroid, and strictly
more than 60 percent of the units farther than 20 from the centroid; when
it fires, the mission keeps the Preparing state, points the squad at the
rally point, and immediately runs the squad update, so the Active
transition is not reached that tick.  With fewer than 2 units or no
centroid the check never triggers. -/
theorem C7_scatter_force_gather :
    (∀ (units : List Vec2) (com : Option Vec2),
      NavalMission.checkUnitScatter units com = true ↔
        (2 ≤ units.length ∧ ∃ c, com = some c ∧
          3 * units.length <
            5 * (units.filter (fun u => decide (distGT u c 20))).length)) ∧
    (∀ (units : List Vec2) (com : Option Vec2)
        (targetComposition currentComposition : List (String × ℕ))
        (currentTick gatherStartTime : ℤ) (rallyPoint : Vec2),
      NavalMission.checkUnitScatter units com = true →
        NavalMission.preparingStep units com targetComposition currentComposition
            currentTick gatherStartTime rallyPoint =
          ⟨NavalMission.MState.Preparing, some rallyPoint,
            NavalMission.MAct.squadUpdate⟩) := by
  constructor
  · intro units com
    unfold NavalMission.checkUnitScatter
    by_cases hlen : units.length < 2
    · rw [if_pos hlen]
      simp only [Bool.false_eq_true, false_iff]
      rintro ⟨h2, -⟩
      omega
    · rw [if_neg hlen]
      cases com with
      | none =>
          simp only [Bool.false_eq_true, false_iff]
          rintro ⟨-, c, hc, -⟩
          exact Option.noConfusion hc
      | some c =>
          have hn : (0 : ℚ) < (units.length : ℚ) := by
            exact_mod_cast (by omega : 0 < units.length)
          simp only [decide_eq_true_eq]
          rw [div_lt_div_iff (by norm_num) hn]
          constructor
          · intro h
            refine ⟨by omega, c, rfl, ?_⟩
            have hq : (3 * units.length : ℚ) <
                (5 * (units.filter (fun u => decide (distGT u c 20))).length : ℚ) := by
              push_cast
              push_cast at h
              linarith
            exact_mod_cast hq
          · rintro ⟨-, c', hc', h⟩
            obtain rfl : c = c' := by injection hc'
            have hq : (3 * units.length : ℚ) <
                (5 * (units.filter (fun u => decide (distGT u c 20))).length : ℚ) := by
              exact_mod_cast h
            push_cast
            push_cast at hq
            linarith
  · intro units com tc cc tick gs rally h
    unfold NavalMission.preparingStep
    rw [if_pos h]

/-- Claim C7 witness: three units on a line with two of them 100 away from
the centroid: the scatter ratio is 2/3 > 0.6, the check fires, and the
Preparing step re-gathers at the rally point. -/
theorem C7_scatter_force_gather_witness :
    NavalMission.checkUnitScatter [⟨0, 0⟩, ⟨100, 0⟩, ⟨200, 0⟩] (some ⟨100, 0⟩) = true ∧
    NavalMission.preparingStep [⟨0, 0⟩, ⟨100, 0⟩, ⟨200, 0⟩] (some ⟨100, 0⟩)
        [] [] 0 0 ⟨5, 5⟩ =
      ⟨NavalMission.MState.Preparing, some ⟨5, 5⟩, NavalMission.MAct.squadUpdate⟩ := by
  have hd1 : distGT ⟨0, 0⟩ ⟨100, 0⟩ 20 := by
    rw [distGT_iff]; right; norm_num [distSq]
  have hd2 : ¬ distGT ⟨100, 0⟩ ⟨100, 0⟩ 20 := by
    rw [distGT_iff]; push_neg
    constructor
    · norm_num
    · norm_num [distSq]
  have hd3 : distGT ⟨200, 0⟩ ⟨100, 0⟩ 20 := by
    rw [distGT_iff]; right; norm_num [distSq]
  have h : NavalMission.checkUnitScatter [⟨0, 0⟩, ⟨100, 0⟩, ⟨200, 0⟩]
      (some ⟨100, 0⟩) = true := by
    unfold NavalMission.checkUnitScatter
    rw [if_neg (by norm_num)]
    simp only [List.filter_cons, List.filter_nil, hd1, hd2, hd3,
      if_true, if_false, decide_True, decide_False,
      List.length_cons, List.length_nil]
    rw [decide_eq_true_eq]
    norm_num
  exact ⟨h, C7_scatter_force_gather.2 _ _ _ _ _ _ _ h⟩

/-- Claim C2 counterexample: with 2 units sitting 50 from their centroid
(farthest distance 50, far above sqrt(2) * 2 + 3) but the centroid tile
lookup returning undefined, the Gathering squad still switches to
Attacking, because getTile(centerOfMass) !== undefined is part of the
guard; the claim says the transition happens exactly when the distance is
within the radius. -/
theorem C2_gather_radii_cex :
    NavalSquad.nextSquadState NavalSquad.SquadState.Gathering
        [⟨0, 0⟩, ⟨100, 0⟩] false = NavalSquad.SquadState.Attacking ∧
    NavalSquad.getMaxDistanceToCenterOfMass [⟨0, 0⟩, ⟨100, 0⟩] = some (50 : ℝ) ∧
    Real.sqrt 2 * 2 + 3 < (50 : ℝ) := by
  refine ⟨?_, ?_, ?_⟩
  · unfold NavalSquad.nextSquadState
    rw [if_pos rfl,
      if_neg (NavalSquad.squadRadiusGuard_not_of_tile_undefined _ _ _)]
  · have hcom : getCenterOfMass [⟨0, 0⟩, ⟨100, 0⟩] = some ⟨50, 0⟩ := by
      simp only [getCenterOfMass, List.map_cons, List.map_nil, List.sum_cons,
        List.sum_nil, List.length_cons, List.length_nil, Vec2.mk.injEq,
        Option.some.injEq]
      norm_num
    have hd1 : getDistanceBetweenPoints ⟨0, 0⟩ ⟨50, 0⟩ = (50 : ℝ) := by
      rw [dist_horizontal 0 50 0 (by norm_num)]
      norm_num
    have hd2 : getDistanceBetweenPoints ⟨100, 0⟩ ⟨50, 0⟩ = (50 : ℝ) := by
      rw [dist_horizontal_ge 100 50 0 (by norm_num)]
      norm_num
    unfold NavalSquad.getMaxDistanceToCenterOfMass
    rw [hcom]
    simp only [List.foldl_cons, List.foldl_nil, hd1, hd2, Option.some.injEq]
    rw [max_eq_right (by norm_num : (0 : ℝ) ≤ 50), max_self]
  · have hs : Real.sqrt 2 < 2 := (Real.sqrt_lt' (by norm_num)).mpr (by norm_num)
    linarith

/-- Claim C2 amended: on a command tick where the centroid is defined and
its tile lookup succeeds, a Gathering squad of n units switches to
Attacking exactly when the farthest distance d from the centroid satisfies
d <= sqrt(n) * 2 + 3, and an Attacking squad reverts to Gathering exactly
when d > sqrt(n) * 2 + 6; when the centroid tile lookup fails, the squad
switches to (or stays in) Attacking regardless of d. -/
theorem C2_gather_radii_amended :
    ∀ (positions : List Vec2) (d : ℝ),
      NavalSquad.getMaxDistanceToCenterOfMass positions = some d →
      ((NavalSquad.nextSquadState NavalSquad.SquadState.Gathering positions true =
          NavalSquad.SquadState.Attacking ↔
        d ≤ Real.sqrt positions.length * 2 + 3) ∧
       (NavalSquad.nextSquadState NavalSquad.SquadState.Attacking positions true =
          NavalSquad.SquadState.Gathering ↔
        Real.sqrt positions.length * 2 + 6 < d) ∧
       (NavalSquad.nextSquadState NavalSquad.SquadState.Gathering positions false =
          NavalSquad.SquadState.Attacking)) := by
  intro positions d h
  have hd0 : 0 ≤ d := NavalSquad.getMaxDistanceToCenterOfMass_nonneg positions d h
  obtain ⟨c, hcom⟩ : ∃ c, getCenterOfMass positions = some c := by
    unfold NavalSquad.getMaxDistanceToCenterOfMass at h
    cases hcc : getCenterOfMass positions with
    | none => rw [hcc] at h; exact absurd h (by simp)
    | some c => exact ⟨c, rfl⟩
  have hreq3 : (0 : ℝ) < Real.sqrt positions.length * 2 + 3 := by positivity
  have hreq6 : (0 : ℝ) < Real.sqrt positions.length * 2 + 6 := by positivity
  have hg3 := NavalSquad.squadRadiusGuard_iff c (getCenterOfMass positions)
    (NavalSquad.getMaxDistanceToCenterOfMass positions) d
    (Real.sqrt positions.length * 2 + 3) hcom h
  have hg6 := NavalSquad.squadRadiusGuard_iff c (getCenterOfMass positions)
    (NavalSquad.getMaxDistanceToCenterOfMass positions) d
    (Real.sqrt positions.length * 2 + 6) hcom h
  refine ⟨?_, ?_, ?_⟩
  · unfold NavalSquad.nextSquadState
    rw [if_pos rfl]
    by_cases hg : NavalSquad.squadRadiusGuard (getCenterOfMass positions)
        (NavalSquad.getMaxDistanceToCenterOfMass positions) true
        (Real.sqrt positions.length * 2 + 3)
    · rw [if_pos hg]
      obtain ⟨-, hlt⟩ := hg3.mp hg
      constructor
      · intro hcontra; exact absurd hcontra (by simp)
      · intro hle; exact absurd hle (not_le.mpr hlt)
    · rw [if_neg hg]
      have : ¬ (d ≠ 0 ∧ Real.sqrt positions.length * 2 + 3 < d) := fun hx => hg (hg3.mpr hx)
      constructor
      · intro _
        rcases not_and_or.mp this with hz | hle
        · push_neg at hz
          rw [hz]; exact hreq3.le
        · exact not_lt.mp hle
      · intro _; rfl
  · unfold NavalSquad.nextSquadState
    rw [if_neg (by simp)]
    by_cases hg : NavalSquad.squadRadiusGuard (getCenterOfMass positions)
        (NavalSquad.getMaxDistanceToCenterOfMass positions) true
        (Real.sqrt positions.length * 2 + 6)
    · rw [if_pos hg]
      obtain ⟨-, hlt⟩ := hg6.mp hg
      exact ⟨fun _ => hlt, fun _ => rfl⟩
    · rw [if_neg hg]
      have hno : ¬ (d ≠ 0 ∧ Real.sqrt positions.length * 2 + 6 < d) :=
        fun hx => hg (hg6.mpr hx)
      constructor
      · intro hcontra; exact absurd hcontra (by simp)
      · intro hlt
        exfalso
        exact hno ⟨by linarith, hlt⟩
  · unfold NavalSquad.nextSquadState
    rw [if_pos rfl,
      if_neg (NavalSquad.squadRadiusGuard_not_of_tile_undefined _ _ _)]

/-- Claim C2 witness: a single unit at the origin has farthest distance 0,
and 0 <= sqrt(1) * 2 + 3, so the Gathering squad switches to Attacking. -/
theorem C2_gather_radii_amended_witness :
    NavalSquad.nextSquadState NavalSquad.SquadState.Gathering [⟨0, 0⟩] true =
      NavalSquad.SquadState.Attacking := by
  have hcom : getCenterOfMass [⟨0, 0⟩] = some ⟨0, 0⟩ := by
    simp only [getCenterOfMass, List.map_cons, List.map_nil, List.sum_cons,
      List.sum_nil, List.length_cons, List.length_nil, Vec2.mk.injEq,
      Option.some.injEq]
    norm_num
  have hd : NavalSquad.getMaxDistanceToCenterOfMass [⟨0, 0⟩] = some (0 : ℝ) := by
    unfold NavalSquad.getMaxDistanceToCenterOfMass
    rw [hcom]
    simp only [List.foldl_cons, List.foldl_nil, dist_self, Option.some.injEq]
    rw [max_self]
  exact ((C2_gather_radii_amended [⟨0, 0⟩] 0 hd).1).mpr (by positivity)

/-- Claim C4 counterexample: a non-permanent land target at (10,0), 3
loss attempts spent, a recorded minimum distance of 20, and one scout at
(0,0) (distance 10, a strict reduction): the update refreshes the timer
(scoutTargetRefreshedAt becomes the tick, 100, and the recorded minimum
drops to 10) but the attempt count stays at 3 instead of resetting. -/
theorem C4_scout_reset_cex :
    (ScoutingMission.scoutStep
        ⟨1/2, 100, [⟨0, 0⟩], false, some false, false, none, none, false⟩
        ⟨some ⟨10, 0⟩, 3, 0, 0, false, false, some 20, true⟩).1.scoutTargetRefreshedAt
        = 100 ∧
    (ScoutingMission.scoutStep
        ⟨1/2, 100, [⟨0, 0⟩], false, some false, false, none, none, false⟩
        ⟨some ⟨10, 0⟩, 3, 0, 0, false, false, some 20, true⟩).1.scoutMinDistance
        = some (10 : ℝ) ∧
    (ScoutingMission.scoutStep
        ⟨1/2, 100, [⟨0, 0⟩], false, some false, false, none, none, false⟩
        ⟨some ⟨10, 0⟩, 3, 0, 0, false, false, some 20, true⟩).1.attemptsOnCurrentTarget
        = 3 := by
  have hmin : ScoutingMission.newMinDistanceOf [⟨0, 0⟩] ⟨10, 0⟩ = (10 : ℝ) := by
    unfold ScoutingMission.newMinDistanceOf
      ScoutingMission.getDistanceBetweenTileAndPoint
    simp only [List.map_nil, List.foldl_nil]
    rw [dist_horizontal 0 10 0 (by norm_num)]
    norm_num
  have hstep : ScoutingMission.scoutStep
      ⟨1/2, 100, [⟨0, 0⟩], false, some false, false, none, none, false⟩
      ⟨some ⟨10, 0⟩, 3, 0, 0, false, false, some 20, true⟩ =
      (⟨some ⟨10, 0⟩, 3, 100, 100, false, false,
        some (ScoutingMission.newMinDistanceOf [⟨0, 0⟩] ⟨10, 0⟩), true⟩,
       ScoutingMission.ScoutAct.noop) := by
    unfold ScoutingMission.scoutStep
    rw [if_neg (by norm_num : ¬ ((9 : ℚ)/10 < 1/2))]
    rw [if_neg (by simp : ¬ ([(⟨0, 0⟩ : Vec2)] = []))]
    dsimp only
    rw [if_neg (by simp)]
    rw [if_neg (by norm_num)]
    rw [if_neg (by norm_num)]
    rw [if_neg (by simp)]
    rw [if_pos (by norm_num : (0 : ℤ) + 30 < 100)]
    rw [if_pos (Or.inr ⟨20, rfl, by rw [hmin]; norm_num⟩)]
    rw [if_neg (by simp : ¬ (false = true))]
  rw [hstep, hmin]
  exact ⟨rfl, rfl, rfl⟩

/-- Claim C4 amended: for a non-permanent target with scouts alive and no
stuck switch pending, the target is abandoned (cleared, with the attempt
count and the refresh timestamp both zeroed) once more than 5 loss
attempts were spent on it, or once 600 ticks pass without the timer
refreshing; on a throttled move tick, a strict reduction of the recorded
minimum distance refreshes only the tick budget and the recorded minimum,
while the attempt count keeps its value (it resets only when the target
changes). -/
theorem C4_scout_target_budget_amended :
    ∀ (env : ScoutingMission.ScoutEnv) (st : ScoutingMission.ScoutState) (tgt : Vec2),
      ¬ (9/10 < env.overallVisibility) → env.scouts ≠ [] →
      st.scoutTarget = some tgt → st.scoutTargetIsPermanent = false →
      env.stuckSwitch = false →
      ((5 < st.attemptsOnCurrentTarget ∨
          (st.attemptsOnCurrentTarget ≤ 5 ∧
            st.scoutTargetRefreshedAt + 600 < env.currentTick)) →
        (ScoutingMission.scoutStep env st).1.scoutTarget = none ∧
        (ScoutingMission.scoutStep env st).1.attemptsOnCurrentTarget = 0 ∧
        (ScoutingMission.scoutStep env st).1.scoutTargetRefreshedAt = 0 ∧
        (ScoutingMission.scoutStep env st).2 = ScoutingMission.ScoutAct.noop) ∧
      (∀ (w : Bool) (m : ℝ),
        st.attemptsOnCurrentTarget ≤ 5 →
        ¬ (st.scoutTargetRefreshedAt + 600 < env.currentTick) →
        env.targetTile = some w → w = st.isWaterTarget →
        st.lastMoveCommandTick + 30 < env.currentTick →
        st.scoutMinDistance = some m → m ≠ 0 →
        ScoutingMission.newMinDistanceOf env.scouts tgt < m →
        env.targetVisible = false →
        (ScoutingMission.scoutStep env st).1.scoutTargetRefreshedAt = env.currentTick ∧
        (ScoutingMission.scoutStep env st).1.scoutMinDistance =
          some (ScoutingMission.newMinDistanceOf env.scouts tgt) ∧
        (ScoutingMission.scoutStep env st).1.attemptsOnCurrentTarget =
          st.attemptsOnCurrentTarget ∧
        (ScoutingMission.scoutStep env st).1.scoutTarget = some tgt) := by
  intro env st tgt h1 h2 h3 h4 h5
  constructor
  · intro habandon
    unfold ScoutingMission.scoutStep
    rw [if_neg h1, if_neg h2, h3]
    dsimp only
    rw [if_neg (by simp [h4, h5])]
    rcases habandon with hatt | ⟨hatt, htime⟩
    · rw [if_pos ⟨h4, hatt⟩]
      unfold ScoutingMission.setScoutTarget
      exact ⟨rfl, rfl, rfl, rfl⟩
    · rw [if_neg (by rintro ⟨-, hgt⟩; omega), if_pos ⟨h4, htime⟩]
      unfold ScoutingMission.setScoutTarget
      exact ⟨rfl, rfl, rfl, rfl⟩
  · intro w m hatt htime htile hw hmove hmd hm0 hless hvis
    unfold ScoutingMission.scoutStep
    rw [if_neg h1, if_neg h2, h3]
    dsimp only
    rw [if_neg (by simp [h4, h5])]
    rw [if_neg (by rintro ⟨-, hgt⟩; omega)]
    rw [if_neg (by rintro ⟨-, hgt⟩; exact htime hgt)]
    rw [htile]
    dsimp only
    rw [if_neg (by simp [hw])]
    rw [if_pos hmove]
    rw [if_pos (Or.inr ⟨m, by rw [hmd], hless⟩)]
    rw [if_neg (by simp [hvis])]
    exact ⟨rfl, rfl, rfl, by rw [← h3]⟩

/-- Claim C4 witness: a target with 6 spent attempts is abandoned, the
attempt counter and the refresh timestamp are zeroed, and no order is
returned. -/
theorem C4_scout_target_budget_amended_witness :
    (ScoutingMission.scoutStep
        ⟨1/2, 100, [⟨0, 0⟩], false, some false, false, none, none, false⟩
        ⟨some ⟨10, 0⟩, 6, 0, 0, false, false, none, true⟩).1.scoutTarget = none ∧
    (ScoutingMission.scoutStep
        ⟨1/2, 100, [⟨0, 0⟩], false, some false, false, none, none, false⟩
        ⟨some ⟨10, 0⟩, 6, 0, 0, false, false, none, true⟩).1.attemptsOnCurrentTarget
        = 0 ∧
    (ScoutingMission.scoutStep
        ⟨1/2, 100, [⟨0, 0⟩], false, some false, false, none, none, false⟩
        ⟨some ⟨10, 0⟩, 6, 0, 0, false, false, none, true⟩).1.scoutTargetRefreshedAt
        = 0 ∧
    (ScoutingMission.scoutStep
        ⟨1/2, 100, [⟨0, 0⟩], false, some false, false, none, none, false⟩
        ⟨some ⟨10, 0⟩, 6, 0, 0, false, false, none, true⟩).2 =
      ScoutingMission.ScoutAct.noop :=
  (C4_scout_target_budget_amended
      ⟨1/2, 100, [⟨0, 0⟩], false, some false, false, none, none, false⟩
      ⟨some ⟨10, 0⟩, 6, 0, 0, false, false, none, true⟩ ⟨10, 0⟩
      (by norm_num) (by simp) rfl rfl rfl).1 (Or.inl (by norm_num))
/-- Claim C8 counterexample: the attacker (range 5) scans a full-health
combat unit 11 away (weight 2 * (1 - 11/12.5) = 0.24) and a NAYARD
structure 6 away (weight 0.8 * 2 * (1 - 6/12.5) = 0.832); the structure
has the strictly larger weight, yet findBestTarget returns the combat
unit, because combat targets take precedence and the naval-yard override
needs the yard inside weapon range. -/
theorem C8_attack_weight_cex :
    NavalSquad.findBestTarget NavalSquad.c8Attacker
      [NavalSquad.c8Combat, NavalSquad.c8Yard] false = some NavalSquad.c8Combat ∧
    NavalSquad.calculateTargetWeight NavalSquad.c8Attacker NavalSquad.c8Combat false <
      NavalSquad.calculateTargetWeight NavalSquad.c8Attacker NavalSquad.c8Yard false := by
  have hra : NavalSquad.rangeNN NavalSquad.c8Attacker = 5 := rfl
  have hdc : NavalSquad.getDistanceBetweenUnits NavalSquad.c8Attacker
      NavalSquad.c8Combat = (11 : ℝ) := by
    show getDistanceBetweenPoints ⟨0, 0⟩ ⟨11, 0⟩ = (11 : ℝ)
    rw [dist_horizontal 0 11 0 (by norm_num)]
    norm_num
  have hdb : NavalSquad.getDistanceBetweenUnits NavalSquad.c8Attacker
      NavalSquad.c8Yard = (6 : ℝ) := by
    show getDistanceBetweenPoints ⟨0, 0⟩ ⟨6, 0⟩ = (6 : ℝ)
    rw [dist_horizontal 0 6 0 (by norm_num)]
    norm_num
  have hwc : NavalSquad.calculateTargetWeight NavalSquad.c8Attacker
      NavalSquad.c8Combat false = (6/25 : ℝ) := by
    unfold NavalSquad.calculateTargetWeight
    rw [hdc, hra]
    norm_num [NavalSquad.c8Combat]
    rw [if_neg (by decide), if_neg (by decide)]
  have hwb : NavalSquad.calculateTargetWeight NavalSquad.c8Attacker
      NavalSquad.c8Yard false = (104/125 : ℝ) := by
    unfold NavalSquad.calculateTargetWeight
    rw [hdb, hra]
    norm_num [NavalSquad.c8Yard]
  have hfc : [NavalSquad.c8Combat, NavalSquad.c8Yard].filter
      (fun t => t.isSelectableCombatant) = [NavalSquad.c8Combat] := by
    simp [NavalSquad.c8Combat, NavalSquad.c8Yard, List.filter_cons]
  have hfb : [NavalSquad.c8Combat, NavalSquad.c8Yard].filter
      (fun t => !t.isSelectableCombatant) = [NavalSquad.c8Yard] := by
    simp [NavalSquad.c8Combat, NavalSquad.c8Yard, List.filter_cons]
  have hbest : NavalSquad.reduceBestByWeight NavalSquad.c8Attacker
      [NavalSquad.c8Combat] false = some NavalSquad.c8Combat := by
    have hcond : NavalSquad.bwOf NavalSquad.c8Attacker false none <
        NavalSquad.calculateTargetWeight NavalSquad.c8Attacker
          NavalSquad.c8Combat false := by
      rw [hwc]
      unfold NavalSquad.bwOf
      norm_num
    unfold NavalSquad.reduceBestByWeight
    rw [List.foldl_cons, List.foldl_nil]
    unfold NavalSquad.bestStep
    rw [if_pos hcond]
  refine ⟨?_, ?_⟩
  · unfold NavalSquad.findBestTarget
    dsimp only
    rw [hfc, hfb, hbest]
    rw [if_pos (by simp : ([NavalSquad.c8Combat] : List NavalSquad.URec) ≠ [])]
    cases hP : [NavalSquad.c8Yard].find? (fun building =>
        decide (NavalSquad.getDistanceBetweenUnits NavalSquad.c8Attacker building ≤
          ((NavalSquad.rangeNN NavalSquad.c8Attacker : ℚ) : ℝ) ∧
          building.name = "NAYARD")) with
    | none => rfl
    | some nb =>
        have hp := List.find?_some hP
        simp only [decide_eq_true_eq] at hp
        have hmem := List.mem_of_find?_eq_some hP
        simp only [List.mem_singleton] at hmem
        subst hmem
        rw [hdb, hra] at hp
        norm_num at hp
  · rw [hwc, hwb]
    norm_num

/-- Claim C8 amended: the per-unit squad attack weight is the product of
the combatant-vs-structure multiplier (2.0 against 0.8, with the 1.8 and
1.44 naval and amphibious bonuses and the linear low-health bonus
1 + (1 - health) * 1.5 on the combatant side and the 2.0 NAYARD bonus on
the structure side), the in-range bonus 1.3, and a linear distance decay
reaching zero at 2.5 times the attacker weapon range (2 times in the
standalone getNavalAttackWeight of the second squad class); each unit is
ordered to attack the maximum-weight COMBAT target among the scanned
hostiles, with structures eligible only when no combat target was
scanned (then by maximum weight among structures) or through the
override that picks a NAYARD inside weapon range. -/
theorem C8_attack_weight_amended :
    (∀ (a t : NavalSquad.URec) (b : Bool), NavalSquad.rangeNN a ≠ 0 →
        NavalSquad.getDistanceBetweenUnits a t =
          ((NavalSquad.rangeNN a : ℚ) : ℝ) * 2.5 →
        NavalSquad.calculateTargetWeight a t b = 0) ∧
    (∀ (a t : NavalSquad.URec), NavalSquad.rangeNN a ≠ 0 →
        NavalSquad.getDistanceBetweenUnits a t =
          ((NavalSquad.rangeNN a : ℚ) : ℝ) * 2 →
        NavalSquad.getNavalAttackWeight a t = 0) ∧
    (∀ (a : NavalSquad.URec) (targets : List NavalSquad.URec) (b : Bool)
        (r : NavalSquad.URec),
        NavalSquad.findBestTarget a targets b = some r →
        r.isSelectableCombatant = true →
        ∀ t ∈ targets.filter (fun t => t.isSelectableCombatant),
          NavalSquad.calculateTargetWeight a t b ≤
            NavalSquad.calculateTargetWeight a r b) ∧
    (∀ (a : NavalSquad.URec) (targets : List NavalSquad.URec) (b : Bool)
        (r : NavalSquad.URec),
        NavalSquad.findBestTarget a targets b = some r →
        r.isSelectableCombatant = false →
        (targets.filter (fun t => t.isSelectableCombatant) = [] ∧
          ∀ t ∈ targets.filter (fun t => !t.isSelectableCombatant),
            NavalSquad.calculateTargetWeight a t b ≤
              NavalSquad.calculateTargetWeight a r b) ∨
        (r.name = "NAYARD" ∧
          NavalSquad.getDistanceBetweenUnits a r ≤
            ((NavalSquad.rangeNN a : ℚ) : ℝ))) := by
  refine ⟨?_, ?_, ?_, ?_⟩
  · intro a t b hr hd
    have hne : ((NavalSquad.rangeNN a : ℚ) : ℝ) * 2.5 ≠ 0 :=
      mul_ne_zero (by exact_mod_cast hr) (by norm_num)
    unfold NavalSquad.calculateTargetWeight
    rw [hd]
    dsimp only
    rw [div_self hne, sub_self, mul_zero]
  · intro a t hr hd
    have hne : ((NavalSquad.rangeNN a : ℚ) : ℝ) * 2 ≠ 0 :=
      mul_ne_zero (by exact_mod_cast hr) (by norm_num)
    unfold NavalSquad.getNavalAttackWeight
    rw [hd]
    dsimp only
    rw [div_self hne, sub_self, mul_zero]
  · intro a targets b r hres hcomb t ht
    have hle := NavalSquad.reduceBestByWeight_le a b
      (targets.filter (fun t => t.isSelectableCombatant)) t ht
    unfold NavalSquad.findBestTarget at hres
    dsimp only at hres
    split at hres
    · split at hres
      · next nb bc heqnb heqbc =>
          split at hres
          · simp only [Option.some.injEq] at hres
            subst hres
            have hmem := List.mem_filter.mp (List.mem_of_find?_eq_some heqnb)
            have hx := hmem.2
            rw [hcomb] at hx
            exact absurd hx (by decide)
          · rw [hres] at hle
            simpa [NavalSquad.bwOf] using hle
      · rw [hres] at hle
        simpa [NavalSquad.bwOf] using hle
    · next h =>
        rw [not_ne_iff.mp h] at ht
        cases ht
  · intro a targets b r hres hncomb
    unfold NavalSquad.findBestTarget at hres
    dsimp only at hres
    split at hres
    · split at hres
      · next nb bc heqnb heqbc =>
          split at hres
          · simp only [Option.some.injEq] at hres
            subst hres
            have hp := List.find?_some heqnb
            simp only [decide_eq_true_eq] at hp
            exact Or.inr ⟨hp.2, hp.1⟩
          · have hmem := NavalSquad.reduceBestByWeight_mem a b _ r hres
            have hx := (List.mem_filter.mp hmem).2
            rw [hncomb] at hx
            exact absurd hx (by decide)
      · have hmem := NavalSquad.reduceBestByWeight_mem a b _ r hres
        have hx := (List.mem_filter.mp hmem).2
        rw [hncomb] at hx
        exact absurd hx (by decide)
    · next h =>
        refine Or.inl ⟨not_ne_iff.mp h, ?_⟩
        intro t ht
        have hle := NavalSquad.reduceBestByWeight_le a b
          (targets.filter (fun t => !t.isSelectableCombatant)) t ht
        rw [hres] at hle
        simpa [NavalSquad.bwOf] using hle

/-- Claim C8 amended witness: at weapon range 5 the combat weight
vanishes at distance 12.5 and the standalone weight at distance 10. -/
theorem C8_attack_weight_amended_witness :
    NavalSquad.calculateTargetWeight
      ⟨1, "DEST", ⟨0, 0⟩, true, NavalSquad.MoveZone.Water, 100, 100, some 5, none,
       false, false, false, false⟩
      ⟨2, "SUB", ⟨25/2, 0⟩, true, NavalSquad.MoveZone.Other, 100, 100, some 5, none,
       false, false, false, false⟩ false = 0 ∧
    NavalSquad.getNavalAttackWeight
      ⟨1, "DEST", ⟨0, 0⟩, true, NavalSquad.MoveZone.Water, 100, 100, some 5, none,
       false, false, false, false⟩
      ⟨2, "SUB", ⟨10, 0⟩, true, NavalSquad.MoveZone.Other, 100, 100, some 5, none,
       false, false, false, false⟩ = 0 := by
  constructor
  · refine C8_attack_weight_amended.1 _ _ false (by norm_num [NavalSquad.rangeNN]) ?_
    show getDistanceBetweenPoints ⟨0, 0⟩ ⟨25/2, 0⟩ = _
    rw [dist_horizontal 0 (25/2) 0 (by norm_num)]
    norm_num [NavalSquad.rangeNN]
  · refine C8_attack_weight_amended.2.1 _ _ (by norm_num [NavalSquad.rangeNN]) ?_
    show getDistanceBetweenPoints ⟨0, 0⟩ ⟨10, 0⟩ = _
    rw [dist_horizontal 0 10 0 (by norm_num)]
    norm_num [NavalSquad.rangeNN]

/-- Claim C9 counterexample: in handleCombat, with no naval yard near, no
major battle, the lone hostile too far to keep a positive best-target
weight, no engaged ally and an idle time beyond 150 ticks, the radial
search move (unit.id degrees, 25 tiles out) is submitted UNCLAMPED: the
unit at x = 28 on a 30-wide map is ordered to (53, 0), past the x bound
width - 2 = 28 that clampToMapBoundaries (which this path never calls)
would have enforced. -/
theorem C9_clamp_cex :
    (NavalSquad.handleCombat NavalSquad.c9Env NavalSquad.c9CombatStates
        NavalSquad.c9Unit [NavalSquad.c9Hostile] [NavalSquad.c9Unit] 200 ⟨5, 5⟩).2 =
      [⟨0, NavalSquad.OrderKind.Move, some ((53 : ℝ), (0 : ℝ)), none⟩] ∧
    ((NavalSquad.c9Env.mapWidth : ℝ) - 2 < 53) ∧
    NavalSquad.clampToMapBoundaries NavalSquad.c9Env.mapWidth
      NavalSquad.c9Env.mapHeight ((53 : ℝ), (0 : ℝ)) = ⟨28, 1⟩ := by
  have hw : NavalSquad.calculateTargetWeight NavalSquad.c9Unit
      NavalSquad.c9Hostile false = (-6/5 : ℝ) := by
    have hd : NavalSquad.getDistanceBetweenUnits NavalSquad.c9Unit
        NavalSquad.c9Hostile = ((20 : ℚ) : ℝ) := by
      show getDistanceBetweenPoints ⟨28, 0⟩ ⟨8, 0⟩ = _
      rw [dist_horizontal_ge 28 8 0 (by norm_num)]
      norm_num
    unfold NavalSquad.calculateTargetWeight
    rw [hd, show NavalSquad.rangeNN NavalSquad.c9Unit = 5 from rfl]
    norm_num [NavalSquad.c9Hostile]
    rw [if_neg (by decide), if_neg (by decide)]
  have h1 : NavalSquad.findBestTarget NavalSquad.c9Unit
      [NavalSquad.c9Hostile] false = none := by
    have hbest : NavalSquad.reduceBestByWeight NavalSquad.c9Unit
        [NavalSquad.c9Hostile] false = none := by
      have hlt : ¬ (NavalSquad.bwOf NavalSquad.c9Unit false none <
          NavalSquad.calculateTargetWeight NavalSquad.c9Unit
            NavalSquad.c9Hostile false) := by
        rw [hw]
        unfold NavalSquad.bwOf
        norm_num
      unfold NavalSquad.reduceBestByWeight
      rw [List.foldl_cons, List.foldl_nil]
      unfold NavalSquad.bestStep
      rw [if_neg hlt]
    unfold NavalSquad.findBestTarget
    dsimp only
    rw [show [NavalSquad.c9Hostile].filter (fun t => t.isSelectableCombatant) =
          [NavalSquad.c9Hostile] from rfl,
        show [NavalSquad.c9Hostile].filter (fun t => !t.isSelectableCombatant) =
          ([] : List NavalSquad.URec) from rfl,
        hbest]
    rw [if_pos (by simp : ([NavalSquad.c9Hostile] : List NavalSquad.URec) ≠ [])]
    rfl
  have h2 : NavalSquad.findNearestEngagedAlly NavalSquad.c9CombatStates
      NavalSquad.c9Unit [NavalSquad.c9Unit] 200 = none := rfl
  have h3 : NavalSquad.c9CombatStates NavalSquad.c9Unit.id =
      some ⟨0, none, none⟩ := rfl
  refine ⟨?_, by norm_num [NavalSquad.c9Env], ?_⟩
  · have hyard : NavalSquad.c9Env.navalYardNear NavalSquad.c9Unit.tile = none := rfl
    unfold NavalSquad.handleCombat
    dsimp only
    rw [hyard]
    dsimp only
    rw [if_neg (by simp [NavalSquad.c9Env])]
    rw [h1]
    dsimp only
    rw [h2]
    dsimp only
    rw [h3]
    dsimp only
    rw [if_pos (by decide : (150 : ℤ) < 200 - 0)]
    have hang : ((NavalSquad.c9Unit.id % 360 : ℤ) : ℝ) * (Real.pi / 180) = 0 := by
      norm_num [NavalSquad.c9Unit]
    rw [hang, Real.cos_zero, Real.sin_zero]
    have hpt : (((NavalSquad.c9Unit.tile.x : ℝ) + 1 * 25,
        (NavalSquad.c9Unit.tile.y : ℝ) + 0 * 25) : ℝ × ℝ) =
        ((53 : ℝ), (0 : ℝ)) := by
      norm_num [NavalSquad.c9Unit]
    rw [hpt]
    rfl
  · have hw30 : NavalSquad.c9Env.mapWidth = 30 := rfl
    have hh30 : NavalSquad.c9Env.mapHeight = 30 := rfl
    rw [hw30, hh30]
    unfold NavalSquad.clampToMapBoundaries
    rw [show (53 : ℝ) = ((53 : ℤ) : ℝ) by norm_num,
        show (0 : ℝ) = ((0 : ℤ) : ℝ) by norm_num]
    rw [round_intCast, round_intCast]
    rw [show min (53 : ℤ) (30 - 2) = 28 by decide,
        show max (1 : ℤ) 28 = 28 by decide,
        show min (0 : ℤ) (30 - 2) = 0 by decide,
        show max (1 : ℤ) 0 = 1 by decide]
    norm_num

/-- Claim C9 amended: clampToMapBoundaries does keep every point inside
the map rectangle ([1, width-2] x [1, height-2] in the squad variant on a
map at least 3 wide and tall, [2, width-3] x [2, height-3] in the mission
variant on a map at least 5 wide and tall), but NOT every movement target
passes through it: the radial search move of NavalSquad.handleCombat is
submitted without clamping (see the counterexample). -/
theorem C9_clamp_amended :
    (∀ (w h : ℤ) (p : ℝ × ℝ), 3 ≤ w → 3 ≤ h →
        1 ≤ (NavalSquad.clampToMapBoundaries w h p).x ∧
        (NavalSquad.clampToMapBoundaries w h p).x ≤ ((w : ℚ) - 2) ∧
        1 ≤ (NavalSquad.clampToMapBoundaries w h p).y ∧
        (NavalSquad.clampToMapBoundaries w h p).y ≤ ((h : ℚ) - 2)) ∧
    (∀ (w h : ℤ) (p : ℝ × ℝ), 5 ≤ w → 5 ≤ h →
        2 ≤ (NavalMission.clampToMapBoundaries w h p).x ∧
        (NavalMission.clampToMapBoundaries w h p).x ≤ ((w : ℚ) - 3) ∧
        2 ≤ (NavalMission.clampToMapBoundaries w h p).y ∧
        (NavalMission.clampToMapBoundaries w h p).y ≤ ((h : ℚ) - 3)) := by
  constructor
  · intro w h p hw hh
    unfold NavalSquad.clampToMapBoundaries
    dsimp only
    refine ⟨?_, ?_, ?_, ?_⟩
    · exact_mod_cast le_max_left 1 (min (round p.1) (w - 2))
    · have hx : max 1 (min (round p.1) (w - 2)) ≤ w - 2 :=
        max_le (by omega) (min_le_right _ _)
      calc ((max 1 (min (round p.1) (w - 2)) : ℤ) : ℚ) ≤ ((w - 2 : ℤ) : ℚ) := by
            exact_mod_cast hx
        _ = (w : ℚ) - 2 := by push_cast; ring
    · exact_mod_cast le_max_left 1 (min (round p.2) (h - 2))
    · have hy : max 1 (min (round p.2) (h - 2)) ≤ h - 2 :=
        max_le (by omega) (min_le_right _ _)
      calc ((max 1 (min (round p.2) (h - 2)) : ℤ) : ℚ) ≤ ((h - 2 : ℤ) : ℚ) := by
            exact_mod_cast hy
        _ = (h : ℚ) - 2 := by push_cast; ring
  · intro w h p hw hh
    unfold NavalMission.clampToMapBoundaries
    dsimp only
    refine ⟨?_, ?_, ?_, ?_⟩
    · exact_mod_cast le_max_left 2 (min (round p.1) (w - 3))
    · have hx : max 2 (min (round p.1) (w - 3)) ≤ w - 3 :=
        max_le (by omega) (min_le_right _ _)
      calc ((max 2 (min (round p.1) (w - 3)) : ℤ) : ℚ) ≤ ((w - 3 : ℤ) : ℚ) := by
            exact_mod_cast hx
        _ = (w : ℚ) - 3 := by push_cast; ring
    · exact_mod_cast le_max_left 2 (min (round p.2) (h - 3))
    · have hy : max 2 (min (round p.2) (h - 3)) ≤ h - 3 :=
        max_le (by omega) (min_le_right _ _)
      calc ((max 2 (min (round p.2) (h - 3)) : ℤ) : ℚ) ≤ ((h - 3 : ℤ) : ℚ) := by
            exact_mod_cast hy
        _ = (h : ℚ) - 3 := by push_cast; ring

/-- Claim C9 amended witness: the clamp bounds instantiated on the 30x30
map at the out-of-bounds point (53, 0). -/
theorem C9_clamp_amended_witness :
    (1 ≤ (NavalSquad.clampToMapBoundaries 30 30 ((53 : ℝ), (0 : ℝ))).x ∧
      (NavalSquad.clampToMapBoundaries 30 30 ((53 : ℝ), (0 : ℝ))).x ≤ ((30 : ℚ) - 2) ∧
      1 ≤ (NavalSquad.clampToMapBoundaries 30 30 ((53 : ℝ), (0 : ℝ))).y ∧
      (NavalSquad.clampToMapBoundaries 30 30 ((53 : ℝ), (0 : ℝ))).y ≤ ((30 : ℚ) - 2)) ∧
    (2 ≤ (NavalMission.clampToMapBoundaries 30 30 ((53 : ℝ), (0 : ℝ))).x ∧
      (NavalMission.clampToMapBoundaries 30 30 ((53 : ℝ), (0 : ℝ))).x ≤ ((30 : ℚ) - 3) ∧
      2 ≤ (NavalMission.clampToMapBoundaries 30 30 ((53 : ℝ), (0 : ℝ))).y ∧
      (NavalMission.clampToMapBoundaries 30 30 ((53 : ℝ), (0 : ℝ))).y ≤ ((30 : ℚ) - 3)) :=
  ⟨C9_clamp_amended.1 30 30 ((53 : ℝ), (0 : ℝ)) (by norm_num) (by norm_num),
   C9_clamp_amended.2 30 30 ((53 : ℝ), (0 : ℝ)) (by norm_num) (by norm_num)⟩

/-- Claim C6 counterexample: the stuck-monitoring block of onAiUpdate
sits OUTSIDE the command-tick gate, so a unit can be ordered on a
non-command tick.  At tick 183 the command gate is closed (last command
at 178, next command tick 194), but the stuck gate (last check at 122) is
open; the stationary unit completes three identical position samples, is
declared stuck, and a recovery Move is pushed to the batcher. -/
theorem C6_command_throttle_cex :
    (NavalSquad.onAiUpdateA (fun _ _ => true) NavalSquad.c6Env NavalSquad.c6St).2 =
      [NavalSquad.manageMoveMicro NavalSquad.c6Unit (NavalSquad.vecR ⟨0, 0⟩)] ∧
    ¬ NavalSquad.commandGate NavalSquad.c6Env NavalSquad.c6St ∧
    NavalSquad.stuckGate NavalSquad.c6Env NavalSquad.c6St := by
  have hdle : distLE ⟨0, 0⟩ ⟨0, 0⟩ (1/2) := by
    unfold distLE
    rw [dist_self]
    norm_num
  have hstuck : NavalSquad.isUnitStuck
      [⟨0, 0, 61⟩, ⟨0, 0, 122⟩, ⟨0, 0, 183⟩] = true := by
    unfold NavalSquad.isUnitStuck
    rw [if_neg (by decide)]
    show NavalSquad.pairsWithin [⟨0, 0, 61⟩, ⟨0, 0, 122⟩, ⟨0, 0, 183⟩] = true
    simp only [NavalSquad.pairsWithin, Bool.and_eq_true, decide_eq_true_eq]
    exact ⟨hdle, hdle, trivial⟩
  have hh : (NavalSquad.handleStuckUnit NavalSquad.c6Env
      NavalSquad.c6St.stuckStates NavalSquad.c6St.lastPathfindingTime
      NavalSquad.c6Unit NavalSquad.c6Env.currentTick).2.2 =
      NavalSquad.manageMoveMicro NavalSquad.c6Unit (NavalSquad.vecR ⟨0, 0⟩) := by
    unfold NavalSquad.handleStuckUnit
    dsimp only
    rw [show NavalSquad.c6Env.stuckWaterTarget = fun _ _ => (⟨0, 0⟩ : Vec2) from rfl]
    dsimp only
    rw [show NavalSquad.c6Unit.tile = (⟨0, 0⟩ : Vec2) from rfl]
    rw [dist_self]
    rw [if_neg (lt_irrefl (0 : ℝ))]
    rfl
  have hsp2 : (NavalSquad.stuckPhase NavalSquad.c6Env NavalSquad.c6St).2 =
      [NavalSquad.manageMoveMicro NavalSquad.c6Unit (NavalSquad.vecR ⟨0, 0⟩)] := by
    unfold NavalSquad.stuckPhase
    rw [if_pos (by unfold NavalSquad.stuckGate; decide :
      NavalSquad.stuckGate NavalSquad.c6Env NavalSquad.c6St)]
    rw [show NavalSquad.c6Env.units = [NavalSquad.c6Unit] from rfl,
        List.foldl_cons, List.foldl_nil]
    unfold NavalSquad.stuckStepUnit
    dsimp only
    rw [show NavalSquad.pushHistory
        (NavalSquad.c6St.unitPositionHistory NavalSquad.c6Unit.id)
        ⟨NavalSquad.c6Unit.tile.x, NavalSquad.c6Unit.tile.y,
         NavalSquad.c6Env.currentTick⟩ =
        [⟨0, 0, 61⟩, ⟨0, 0, 122⟩, ⟨0, 0, 183⟩] from rfl]
    rw [hstuck, if_pos rfl]
    dsimp only
    rw [hh]
    rfl
  have hng : ¬ NavalSquad.commandGate NavalSquad.c6Env
      (NavalSquad.stuckPhase NavalSquad.c6Env NavalSquad.c6St).1 := by
    unfold NavalSquad.commandGate
    rw [NavalSquad.stuckPhase_lastCommand]
    decide
  have hcp : NavalSquad.commandPhase NavalSquad.c6Env
      (NavalSquad.stuckPhase NavalSquad.c6Env NavalSquad.c6St).1 =
      ((NavalSquad.stuckPhase NavalSquad.c6Env NavalSquad.c6St).1, []) := by
    unfold NavalSquad.commandPhase
    rw [if_neg hng]
  refine ⟨?_, by unfold NavalSquad.commandGate; decide,
    by unfold NavalSquad.stuckGate; decide⟩
  unfold NavalSquad.onAiUpdateA
  dsimp only
  rw [hcp]
  dsimp only
  rw [List.append_nil, NavalSquad.stuckPhase_lastOrderGiven, hsp2]
  rfl

/-- Claim C6 amended: when NEITHER the 60-tick stuck gate NOR the
15-tick command gate is open, the update pushes nothing to the batcher,
and every pushed action of an update differs (under the batcher
comparison) from the last order recorded for its unit at the moment of
the push; but an order can be pushed on a stuck-check tick that is not a
command tick (see the counterexample), so the command interval alone does
not bound the submissions. -/
theorem C6_command_throttle_amended :
    ∀ (same : NavalSquad.BAction → NavalSquad.BAction → Bool)
      (env : NavalSquad.Env) (st : NavalSquad.SquadSt),
      (¬ NavalSquad.stuckGate env st → ¬ NavalSquad.commandGate env st →
        (NavalSquad.onAiUpdateA same env st).2 = []) ∧
      NavalSquad.dedupOK same st.lastOrderGiven
        (NavalSquad.onAiUpdateA same env st).2 := by
  intro same env st
  constructor
  · intro hsg hcg
    have h1 : NavalSquad.stuckPhase env st = (st, []) := by
      unfold NavalSquad.stuckPhase
      rw [if_neg hsg]
    have h2 : NavalSquad.commandPhase env st = (st, []) := by
      unfold NavalSquad.commandPhase
      rw [if_neg hcg]
    unfold NavalSquad.onAiUpdateA
    dsimp only
    rw [h1]
    dsimp only
    rw [h2]
    rfl
  · unfold NavalSquad.onAiUpdateA
    dsimp only
    rw [NavalSquad.commandPhase_lastOrderGiven, NavalSquad.stuckPhase_lastOrderGiven]
    exact NavalSquad.runSubmits_dedupOK same _ st.lastOrderGiven

/-- Claim C6 amended witness: at tick 10 with the last command at tick 5
and the last stuck check at tick 0, both gates are closed and the update
pushes nothing. -/
theorem C6_command_throttle_amended_witness :
    (NavalSquad.onAiUpdateA (fun _ _ => true) NavalSquad.c6wEnv NavalSquad.c6wSt).2 = [] :=
  (C6_command_throttle_amended (fun _ _ => true) NavalSquad.c6wEnv NavalSquad.c6wSt).1
    (by unfold NavalSquad.stuckGate; decide)
    (by unfold NavalSquad.commandGate; decide)

end RA2Bot
